import Mathlib

/-!
OpenSSLAdapter (talk/base/openssladapter.cc)

A shallow embedding of the TLS adapter of libjingle: the certificate verifier
(`VerifyServerName`, `SSLPostConnectionCheck`, `SSLVerifyCallback`), the
handshake state machine (`StartSSL`, `BeginSSL`, `ContinueSSL`, `Send`, `Recv`,
`Close`, the readiness events) and the transport bridge (`socket_new`,
`socket_read`, `socket_write`, `socket_puts`, `socket_ctrl`).

Conventions of the embedding:

* C strings are lists of characters, the terminating NUL left implicit (so
  the list of a C string holds no NUL); a `const char*` that may be null is an
  `Option`.  A character array that the engine fills with raw bytes is a list
  with its NUL bytes written out, and `c_str` gives the C string that starts
  at its beginning.
* `int` values are `Int`, `size_t` values are `Nat`; no arithmetic of the
  adapter can overflow.
* The TLS engine and the wrapped socket are outside the adapter.  Every answer
  they give during one operation is read from an `Env` record, and every call
  made to them, like every notification sent to the caller, is appended to a
  trace of `Event`s.
-/

namespace OpenSSLAdapter

/-! ## Strings -/

/-- The C library's `tolower` in the "C" locale: the letters `A`..`Z` are moved
to `a`..`z`, every other character is kept. -/
def tolower (c : Char) : Char :=
  if 65 ≤ c.toNat ∧ c.toNat ≤ 90 then Char.ofNat (c.toNat + 32) else c

/-- The NUL byte, which ends a C string. -/
def NUL : Char := Char.ofNat 0

/-- The C string that starts at the beginning of a character array: the
characters before the first NUL byte. -/
def c_str (buf : List Char) : List Char :=
  buf.takeWhile (fun c => c != NUL)

/-- Modelled from the spec: `_stricmp` is declared in talk/base/stringutils.h,
which is not among the sources.  The spec says the Common Name is "compared
case-insensitively for exact equality"; the model is the usual `strcasecmp`:
the first pair of characters that differs after case folding decides the sign,
and the result is `0` exactly for two strings that are equal up to letter
case. -/
def _stricmp : List Char → List Char → Int
  | [], [] => 0
  | [], _ :: _ => -1
  | _ :: _, [] => 1
  | a :: as, b :: bs =>
    if tolower a = tolower b then _stricmp as bs
    else ((tolower a).toNat : Int) - ((tolower b).toNat : Int)

/-- Modelled from the spec: `string_match` is defined in talk/base/stringutils,
which is not among the sources.  The spec says a SAN entry is matched
case-insensitively against the expected host and "may contain a single leading
wildcard label (`*.domain.tld`) matching exactly one left-most label of the
expected host".  So a pattern `*.rest` matches a target whose first label (the
characters before its first dot) is non-empty and whose remainder after that
dot equals `rest` up to letter case; any other pattern matches the targets
equal to it up to letter case. -/
def string_match (target pattern : List Char) : Bool :=
  match pattern with
  | '*' :: '.' :: rest =>
    match target.dropWhile (fun c => c != '.') with
    | _ :: tail =>
      !(target.takeWhile (fun c => c != '.')).isEmpty && _stricmp tail rest == 0
    | [] => false
  | _ => _stricmp target pattern == 0

/-! ## Certificates and engine sessions -/

/-- One name/value pair of a decoded extension (`CONF_VALUE`). -/
structure CONF_VALUE where
  name : List Char
  value : List Char
deriving DecidableEq, Repr

/-- A certificate extension: its object identifier as `OBJ_obj2nid` reports
it, and the name/value pairs that the extension method's `i2v` yields for the
decoded extension value. -/
structure X509_EXTENSION where
  nid : Nat
  value : List CONF_VALUE
deriving DecidableEq, Repr

/-- The engine's identifier of the subjectAltName extension. -/
def NID_subject_alt_name : Nat := 85

/-- The engine's identifier of the commonName attribute. -/
def NID_commonName : Nat := 13

/-- A distinguished name: its attributes in order, each an identifier with the
bytes of its value as the certificate stores them (the data of an
`ASN1_STRING`, whose length is kept apart, so that NUL bytes may occur among
them). -/
structure X509_NAME where
  entries : List (Nat × List Char)
deriving DecidableEq, Repr

/-- A peer certificate as the verifier reads it: the extensions in order, the
subject name (null when absent), and whether `X509V3_EXT_get` finds a decoding
method for a subjectAltName extension (the engine looks the method up by the
extension's identifier, so the answer is the same for every such extension of
the certificate). -/
structure X509 where
  extensions : List X509_EXTENSION
  alt_name_method : Bool
  subject : Option X509_NAME
deriving DecidableEq, Repr

/-- An engine session (`SSL`) as the adapter observes it: the peer certificate
(`SSL_get_peer_certificate`, null when none was presented) and the result of
the engine's chain verification (`SSL_get_verify_result`). -/
structure SSL where
  peer_certificate : Option X509
  verify_result : Int
deriving DecidableEq, Repr

/-- The chain verification result "ok". -/
def X509_V_OK : Int := 0

/-- The engine call `X509_NAME_get_text_by_NID(name, nid, buf, len)`: `-1` when
the name has no attribute `nid`, and the buffer is left alone; otherwise the
first `i` bytes of the first such attribute are copied as they are into the
buffer (`memcpy`), `i` being the length of the value or `len - 1` when the
value is longer, a NUL is written after them (`buf[i] = 0`), and `i` is
returned.  The second component is the part of the buffer that the call has
written. -/
def X509_NAME_get_text_by_NID (name : X509_NAME) (nid : Nat) (len : Nat) :
    Int × List Char :=
  match name.entries.find? (fun e => e.1 == nid) with
  | none => (-1, [])
  | some e =>
    let i := if e.2.length > len - 1 then len - 1 else e.2.length
    ((i : Int), e.2.take i ++ [NUL])

/-- The inner loop of `VerifyServerName`: the name/value pairs of one
subjectAltName extension are tried in order, and the scan stops at the first
pair named `DNS` whose value `string_match`es the host. -/
def scan_alt_names (host : List Char) : List CONF_VALUE → Bool
  | [] => false
  | nval :: rest =>
    if nval.name = ['D', 'N', 'S'] && string_match host nval.value then true
    else scan_alt_names host rest

/-- The outer loop of `VerifyServerName` over the certificate's extensions:
every subjectAltName extension is scanned until one matches; the loop is left
at once when no decoding method is found. -/
def scan_extensions (meth : Bool) (host : List Char) : List X509_EXTENSION → Bool
  | [] => false
  | extension :: rest =>
    if extension.nid = NID_subject_alt_name then
      if !meth then false
      else if scan_alt_names host extension.value then true
      else scan_extensions meth host rest
    else scan_extensions meth host rest

/-- The size of the buffer `data` that receives the Common Name. -/
def sizeof_data : Nat := 256

/-- `OpenSSLAdapter::VerifyServerName(ssl, host, ignore_bad_cert)`.  The array
`data` is held as the part that the engine has written; `data[sizeof(data)-1]
= 0` falls inside that part only when the engine has filled the whole array,
and `_stricmp(data, host)` reads `data` as a C string, up to its first NUL. -/
def VerifyServerName (ssl : SSL) (host : Option (List Char))
    (ignore_bad_cert : Bool) : Bool :=
  match host with
  | none => false
  | some host =>
    match ssl.peer_certificate with
    | none => false
    | some certificate =>
      let ok := scan_extensions certificate.alt_name_method host certificate.extensions
      let ok :=
        if !ok then
          match certificate.subject with
          | none => ok
          | some subject =>
            let r := X509_NAME_get_text_by_NID subject NID_commonName sizeof_data
            if r.1 > 0 then
              let data := r.2.set (sizeof_data - 1) NUL
              if _stricmp (c_str data) host = 0 then true else ok
            else ok
        else ok
      if !ok && ignore_bad_cert then true else ok

/-! ## The adapter -/

/-- The handshake state `state_` of the adapter.  The spec calls the five
values NotStarted, WaitingForConnect, Handshaking, Established and Failed. -/
inductive SSLState where
  | SSL_NONE
  | SSL_WAIT
  | SSL_CONNECTING
  | SSL_CONNECTED
  | SSL_ERROR
deriving DecidableEq, Repr

/-- The connection state reported by a socket (`Socket::ConnState`). -/
inductive ConnState where
  | CS_CLOSED
  | CS_CONNECTING
  | CS_CONNECTED
deriving DecidableEq, Repr

/-- A verification context of the engine (`SSL_CTX`), known by its handle. -/
structure SSL_CTX where
  handle : Nat
deriving DecidableEq, Repr

/-- The fields of an `OpenSSLAdapter` object, with the `ignore_bad_cert_`
switch that it inherits from `SSLAdapter`. -/
structure Adapter where
  state_ : SSLState
  ssl_read_needs_write_ : Bool
  ssl_write_needs_read_ : Bool
  restartable_ : Bool
  ssl_ : Option SSL
  ssl_ctx_ : Option SSL_CTX
  custom_verification_succeeded_ : Bool
  ssl_host_name_ : List Char
  ignore_bad_cert_ : Bool
deriving DecidableEq, Repr

/-- The verification store handed to the chain callback; the callback reads
the certificate under verification from it. -/
structure X509_STORE_CTX where
  current_cert : X509
deriving DecidableEq, Repr

/-- What the adapter does to the world around it, in order: calls on the
wrapped socket (through `AsyncSocketAdapter`), calls into the engine, calls of
the custom verification predicate, and notifications signalled to the caller. -/
inductive Event where
  | socket_GetState
  | socket_Send (pv cb : Nat)
  | socket_Recv (pv cb : Nat)
  | socket_Close
  | SetError (err : Int)
  | SignalConnectEvent
  | SignalReadEvent
  | SignalWriteEvent
  | SignalCloseEvent (err : Int)
  | SSL_CTX_new
  | d2i_X509
  | X509_STORE_add_cert
  | SSL_CTX_free
  | BIO_new
  | BIO_free
  | SSL_new
  | SSL_free
  | SSL_connect
  | SSL_write (pv cb : Nat)
  | SSL_read (pv cb : Nat)
  | custom_verify_callback (cert : X509)
deriving DecidableEq, Repr

/-- One handshake step as the engine answers it: the return code of
`SSL_connect`, the classification `SSL_get_error` gives for it, the session as
it stands after the step, and the calls of the chain callback that the engine
makes during the step (preliminary verdict and store, in order). -/
structure HandshakeStep where
  code : Int
  error : Int
  session : SSL
  verify : List (Int × X509_STORE_CTX)

/-- Everything outside the adapter object that one operation reads: the
answers of the wrapped socket, the answers of the engine, and the
process-wide custom verification predicate `custom_verify_callback_` (null
when none was configured). -/
structure Env where
  socket_state : ConnState
  socket_send : Int
  socket_recv : Int
  socket_close : Int
  ctx_new : Option SSL_CTX
  root_cert_parsed : Bool
  root_cert_added : Bool
  bio_new : Bool
  ssl_new : Option SSL
  connect : HandshakeStep
  write_code : Int
  write_error : Int
  read_code : Int
  read_error : Int
  custom_verify_callback_ : Option (X509 → Bool)

/-- The result value `SOCKET_ERROR`. -/
def SOCKET_ERROR : Int := -1

/-- The error code `EWOULDBLOCK` of the platform (its POSIX value; the adapter
only stores it). -/
def EWOULDBLOCK : Int := 11

/-- Engine error class: the operation completed. -/
def SSL_ERROR_NONE : Int := 0
/-- Engine error class: the operation needs to read from the transport. -/
def SSL_ERROR_WANT_READ : Int := 2
/-- Engine error class: the operation needs to write to the transport. -/
def SSL_ERROR_WANT_WRITE : Int := 3
/-- Engine error class: the peer closed the TLS connection. -/
def SSL_ERROR_ZERO_RETURN : Int := 6

/-- The constructor `OpenSSLAdapter::OpenSSLAdapter(socket)`; the host name
starts empty and the `ignore_bad_cert_` switch of `SSLAdapter` starts clear. -/
def Adapter.new : Adapter :=
  { state_ := SSLState.SSL_NONE
    ssl_read_needs_write_ := false
    ssl_write_needs_read_ := false
    restartable_ := false
    ssl_ := none
    ssl_ctx_ := none
    custom_verification_succeeded_ := false
    ssl_host_name_ := []
    ignore_bad_cert_ := false }

/-- `OpenSSLAdapter::SSLPostConnectionCheck(ssl, host)`. -/
def SSLPostConnectionCheck (a : Adapter) (ssl : SSL) (host : Option (List Char)) : Bool :=
  let ok := VerifyServerName ssl host a.ignore_bad_cert_
  let ok :=
    if ok then (ssl.verify_result == X509_V_OK || a.custom_verification_succeeded_)
    else ok
  if !ok && a.ignore_bad_cert_ then true else ok

/-- `OpenSSLAdapter::SSLVerifyCallback(ok, store)`, run on the adapter `stream`
that the session carries as its application data.  The result is the verdict
given back to the engine (non-zero accepts), the adapter afterwards, and the
calls made to the custom predicate. -/
def SSLVerifyCallback (custom_verify_callback_ : Option (X509 → Bool))
    (stream : Adapter) (ok : Int) (store : X509_STORE_CTX) :
    Int × Adapter × List Event :=
  let r : Int × Adapter × List Event :=
    if ok = 0 then
      match custom_verify_callback_ with
      | none => (ok, stream, [])
      | some callback =>
        let cert := store.current_cert
        if callback cert then
          (1, { stream with custom_verification_succeeded_ := true },
            [Event.custom_verify_callback cert])
        else (ok, stream, [Event.custom_verify_callback cert])
    else (ok, stream, [])
  if r.1 = 0 && r.2.1.ignore_bad_cert_ then (1, r.2.1, r.2.2) else r

/-- `OpenSSLAdapter::Cleanup()`. -/
def Cleanup (a : Adapter) : Adapter × List Event :=
  ({ a with
      state_ := SSLState.SSL_NONE
      ssl_read_needs_write_ := false
      ssl_write_needs_read_ := false
      custom_verification_succeeded_ := false
      ssl_ := none
      ssl_ctx_ := none },
    (if a.ssl_.isSome then [Event.SSL_free] else []) ++
    (if a.ssl_ctx_.isSome then [Event.SSL_CTX_free] else []))

/-- `OpenSSLAdapter::Error(context, err, signal)`. -/
def Error (a : Adapter) (err : Int) (signal : Bool) : Adapter × List Event :=
  ({ a with state_ := SSLState.SSL_ERROR },
    Event.SetError err :: (if signal then [Event.SignalCloseEvent err] else []))

/-- `OpenSSLAdapter::ConfigureTrustedRootCertificates(ctx)`. -/
def ConfigureTrustedRootCertificates (env : Env) : Bool × List Event :=
  if !env.root_cert_parsed then (false, [Event.d2i_X509])
  else (env.root_cert_added, [Event.d2i_X509, Event.X509_STORE_add_cert])

/-- `OpenSSLAdapter::SetupSSLContext()`. -/
def SetupSSLContext (env : Env) : Option SSL_CTX × List Event :=
  match env.ctx_new with
  | none => (none, [Event.SSL_CTX_new])
  | some ctx =>
    let r := ConfigureTrustedRootCertificates env
    if !r.1 then (none, Event.SSL_CTX_new :: r.2 ++ [Event.SSL_CTX_free])
    else (some ctx, Event.SSL_CTX_new :: r.2)

/-- The chain callbacks of one handshake step, run in order on the adapter. -/
def run_verify_callbacks (custom_verify_callback_ : Option (X509 → Bool)) :
    List (Int × X509_STORE_CTX) → Adapter → Adapter × List Event
  | [], a => (a, [])
  | (ok, store) :: rest, a =>
    let r := SSLVerifyCallback custom_verify_callback_ a ok store
    let r2 := run_verify_callbacks custom_verify_callback_ rest r.2.1
    (r2.1, r.2.2 ++ r2.2)

/-- The engine call `SSL_connect(ssl_)` seen from the adapter: the engine runs
the chain callbacks of the step on the adapter and leaves the session in its
new condition. -/
def SSL_connect (env : Env) (a : Adapter) : Adapter × List Event :=
  let r := run_verify_callbacks env.custom_verify_callback_ env.connect.verify a
  ({ r.1 with ssl_ := r.1.ssl_.map (fun _ => env.connect.session) },
    Event.SSL_connect :: r.2)

/-- `OpenSSLAdapter::ContinueSSL()`. -/
def ContinueSSL (env : Env) (a : Adapter) : Int × Adapter × List Event :=
  let r := SSL_connect env a
  let a := r.1
  let code := env.connect.code
  if env.connect.error = SSL_ERROR_NONE then
    if !SSLPostConnectionCheck a env.connect.session (some a.ssl_host_name_) then
      let c := Cleanup a
      (-1, c.1, r.2 ++ c.2)
    else
      (0, { a with state_ := SSLState.SSL_CONNECTED }, r.2 ++ [Event.SignalConnectEvent])
  else if env.connect.error = SSL_ERROR_WANT_READ then (0, a, r.2)
  else if env.connect.error = SSL_ERROR_WANT_WRITE then (0, a, r.2)
  else ((if code ≠ 0 then code else -1), a, r.2)

/-- `OpenSSLAdapter::BeginSSL()`. -/
def BeginSSL (env : Env) (a : Adapter) : Int × Adapter × List Event :=
  let s : Option SSL_CTX × List Event :=
    if a.ssl_ctx_.isNone then SetupSSLContext env else (a.ssl_ctx_, [])
  let a := { a with ssl_ctx_ := s.1 }
  if a.ssl_ctx_.isNone then
    let c := Cleanup a
    (-1, c.1, s.2 ++ c.2)
  else if !env.bio_new then
    let c := Cleanup a
    (-1, c.1, s.2 ++ [Event.BIO_new] ++ c.2)
  else
    let a := { a with ssl_ := env.ssl_new }
    if a.ssl_.isNone then
      let c := Cleanup a
      (-1, c.1, s.2 ++ [Event.BIO_new, Event.SSL_new] ++ c.2 ++ [Event.BIO_free])
    else
      let r := ContinueSSL env a
      if r.1 ≠ 0 then
        let c := Cleanup r.2.1
        (r.1, c.1, s.2 ++ [Event.BIO_new, Event.SSL_new] ++ r.2.2 ++ c.2)
      else (r.1, r.2.1, s.2 ++ [Event.BIO_new, Event.SSL_new] ++ r.2.2)

/-- `OpenSSLAdapter::StartSSL(hostname, restartable)`. -/
def StartSSL (env : Env) (hostname : List Char) (restartable : Bool) (a : Adapter) :
    Int × Adapter × List Event :=
  if a.state_ ≠ SSLState.SSL_NONE then (-1, a, [])
  else
    let a := { a with ssl_host_name_ := hostname, restartable_ := restartable }
    if env.socket_state ≠ ConnState.CS_CONNECTED then
      (0, { a with state_ := SSLState.SSL_WAIT }, [Event.socket_GetState])
    else
      let r := BeginSSL env { a with state_ := SSLState.SSL_CONNECTING }
      if r.1 ≠ 0 then
        let e := Error r.2.1 r.1 false
        (r.1, e.1, Event.socket_GetState :: r.2.2 ++ e.2)
      else (0, r.2.1, Event.socket_GetState :: r.2.2)

/-- `OpenSSLAdapter::Send(pv, cb)`; the buffer is its address and its size. -/
def Send (env : Env) (pv cb : Nat) (a : Adapter) : Int × Adapter × List Event :=
  match a.state_ with
  | SSLState.SSL_NONE => (env.socket_send, a, [Event.socket_Send pv cb])
  | SSLState.SSL_WAIT => (SOCKET_ERROR, a, [Event.SetError EWOULDBLOCK])
  | SSLState.SSL_CONNECTING => (SOCKET_ERROR, a, [Event.SetError EWOULDBLOCK])
  | SSLState.SSL_ERROR => (SOCKET_ERROR, a, [])
  | SSLState.SSL_CONNECTED =>
    if cb = 0 then (0, a, [])
    else
      let a := { a with ssl_write_needs_read_ := false }
      let code := env.write_code
      if env.write_error = SSL_ERROR_NONE then (code, a, [Event.SSL_write pv cb])
      else if env.write_error = SSL_ERROR_WANT_READ then
        (SOCKET_ERROR, { a with ssl_write_needs_read_ := true },
          [Event.SSL_write pv cb, Event.SetError EWOULDBLOCK])
      else if env.write_error = SSL_ERROR_WANT_WRITE then
        (SOCKET_ERROR, a, [Event.SSL_write pv cb, Event.SetError EWOULDBLOCK])
      else if env.write_error = SSL_ERROR_ZERO_RETURN then
        (SOCKET_ERROR, a, [Event.SSL_write pv cb, Event.SetError EWOULDBLOCK])
      else
        let e := Error a (if code ≠ 0 then code else -1) false
        (SOCKET_ERROR, e.1, Event.SSL_write pv cb :: e.2)

/-- `OpenSSLAdapter::Recv(pv, cb)`; the buffer is its address and its size. -/
def Recv (env : Env) (pv cb : Nat) (a : Adapter) : Int × Adapter × List Event :=
  match a.state_ with
  | SSLState.SSL_NONE => (env.socket_recv, a, [Event.socket_Recv pv cb])
  | SSLState.SSL_WAIT => (SOCKET_ERROR, a, [Event.SetError EWOULDBLOCK])
  | SSLState.SSL_CONNECTING => (SOCKET_ERROR, a, [Event.SetError EWOULDBLOCK])
  | SSLState.SSL_ERROR => (SOCKET_ERROR, a, [])
  | SSLState.SSL_CONNECTED =>
    if cb = 0 then (0, a, [])
    else
      let a := { a with ssl_read_needs_write_ := false }
      let code := env.read_code
      if env.read_error = SSL_ERROR_NONE then (code, a, [Event.SSL_read pv cb])
      else if env.read_error = SSL_ERROR_WANT_READ then
        (SOCKET_ERROR, a, [Event.SSL_read pv cb, Event.SetError EWOULDBLOCK])
      else if env.read_error = SSL_ERROR_WANT_WRITE then
        (SOCKET_ERROR, { a with ssl_read_needs_write_ := true },
          [Event.SSL_read pv cb, Event.SetError EWOULDBLOCK])
      else if env.read_error = SSL_ERROR_ZERO_RETURN then
        (SOCKET_ERROR, a, [Event.SSL_read pv cb, Event.SetError EWOULDBLOCK])
      else
        let e := Error a (if code ≠ 0 then code else -1) false
        (SOCKET_ERROR, e.1, Event.SSL_read pv cb :: e.2)

/-- `OpenSSLAdapter::Close()`. -/
def Close (env : Env) (a : Adapter) : Int × Adapter × List Event :=
  let c := Cleanup a
  let a := { c.1 with
    state_ := if c.1.restartable_ then SSLState.SSL_WAIT else SSLState.SSL_NONE }
  (env.socket_close, a, c.2 ++ [Event.socket_Close])

/-- `OpenSSLAdapter::GetState()`. -/
def GetState (env : Env) (a : Adapter) : ConnState × List Event :=
  let state := env.socket_state
  if state = ConnState.CS_CONNECTED ∧
      (a.state_ = SSLState.SSL_WAIT ∨ a.state_ = SSLState.SSL_CONNECTING) then
    (ConnState.CS_CONNECTING, [Event.socket_GetState])
  else (state, [Event.socket_GetState])

/-- `OpenSSLAdapter::OnConnectEvent(socket)`. -/
def OnConnectEvent (env : Env) (a : Adapter) : Adapter × List Event :=
  if a.state_ ≠ SSLState.SSL_WAIT then (a, [Event.SignalConnectEvent])
  else
    let r := BeginSSL env { a with state_ := SSLState.SSL_CONNECTING }
    if r.1 ≠ 0 then (r.2.1, r.2.2 ++ [Event.SignalCloseEvent r.1])
    else (r.2.1, r.2.2)

/-- `OpenSSLAdapter::OnReadEvent(socket)`. -/
def OnReadEvent (env : Env) (a : Adapter) : Adapter × List Event :=
  if a.state_ = SSLState.SSL_NONE then (a, [Event.SignalReadEvent])
  else if a.state_ = SSLState.SSL_CONNECTING then
    let r := ContinueSSL env a
    if r.1 ≠ 0 then
      let e := Error r.2.1 r.1 true
      (e.1, r.2.2 ++ e.2)
    else (r.2.1, r.2.2)
  else if a.state_ ≠ SSLState.SSL_CONNECTED then (a, [])
  else
    (a, (if a.ssl_write_needs_read_ then [Event.SignalWriteEvent] else []) ++
      [Event.SignalReadEvent])

/-- `OpenSSLAdapter::OnWriteEvent(socket)`. -/
def OnWriteEvent (env : Env) (a : Adapter) : Adapter × List Event :=
  if a.state_ = SSLState.SSL_NONE then (a, [Event.SignalWriteEvent])
  else if a.state_ = SSLState.SSL_CONNECTING then
    let r := ContinueSSL env a
    if r.1 ≠ 0 then
      let e := Error r.2.1 r.1 true
      (e.1, r.2.2 ++ e.2)
    else (r.2.1, r.2.2)
  else if a.state_ ≠ SSLState.SSL_CONNECTED then (a, [])
  else
    (a, (if a.ssl_read_needs_write_ then [Event.SignalReadEvent] else []) ++
      [Event.SignalWriteEvent])

/-- `OpenSSLAdapter::OnCloseEvent(socket, err)`. -/
def OnCloseEvent (err : Int) (a : Adapter) : Adapter × List Event :=
  (a, [Event.SignalCloseEvent err])

/-! ## The transport bridge (SocketBIO) -/

/-- The fields of the engine's `BIO` object that the bridge reads or writes:
`init`, `shutdown`, `num` (1 means socket closed), `ptr` (the wrapped socket,
null when absent), and the four retry bits of `flags`, one Boolean each:
`BIO_FLAGS_READ`, `BIO_FLAGS_WRITE`, `BIO_FLAGS_IO_SPECIAL` and
`BIO_FLAGS_SHOULD_RETRY`. -/
structure BIO where
  init : Int
  shutdown : Int
  num : Int
  ptr : Option Nat
  retry_read : Bool
  retry_write : Bool
  retry_io_special : Bool
  should_retry : Bool
deriving DecidableEq, Repr

/-- The calls the bridge makes on the wrapped socket, in order. -/
inductive SocketCall where
  | Recv (out : Nat) (outl : Int)
  | Send (inp : Nat) (inl : Int)
  | IsBlocking
deriving DecidableEq, Repr

/-- Control command: reset. -/
def BIO_CTRL_RESET : Int := 1
/-- Control command: has end-of-stream been seen. -/
def BIO_CTRL_EOF : Int := 2
/-- Control command: number of bytes pending for reading. -/
def BIO_CTRL_PENDING : Int := 10
/-- Control command: flush. -/
def BIO_CTRL_FLUSH : Int := 11
/-- Control command: number of bytes pending for writing. -/
def BIO_CTRL_WPENDING : Int := 13

/-- The engine macro `BIO_clear_retry_flags(b)`: the read, write and special
bits and the should-retry bit are cleared. -/
def BIO_clear_retry_flags (b : BIO) : BIO :=
  { b with retry_read := false, retry_write := false, retry_io_special := false,
           should_retry := false }

/-- The engine macro `BIO_set_retry_read(b)`: the read bit and the
should-retry bit are set. -/
def BIO_set_retry_read (b : BIO) : BIO :=
  { b with retry_read := true, should_retry := true }

/-- The engine macro `BIO_set_retry_write(b)`: the write bit and the
should-retry bit are set. -/
def BIO_set_retry_write (b : BIO) : BIO :=
  { b with retry_write := true, should_retry := true }

/-- A `BIO` as the engine's `BIO_new` sets it up before it calls the method's
`create` function: not initialised, all flags clear. -/
def BIO_blank : BIO :=
  { init := 0
    shutdown := 1
    num := 0
    ptr := none
    retry_read := false
    retry_write := false
    retry_io_special := false
    should_retry := false }

/-- `socket_new(b)`. -/
def socket_new (b : BIO) : Int × BIO :=
  (1, { b with shutdown := 0, init := 1, num := 0, ptr := none })

/-- `socket_free(b)`; a null `b` is `none`. -/
def socket_free (b : Option BIO) : Int :=
  match b with
  | none => 0
  | some _ => 1

/-- The engine call `BIO_new(BIO_s_socket2())`: null when the allocation
fails or when `socket_new` reports a failure, else the blank object after
`socket_new`. -/
def BIO_new (allocated : Bool) : Option BIO :=
  if !allocated then none
  else
    let r := socket_new BIO_blank
    if r.1 = 0 then none else some r.2

/-- `BIO_new_socket(socket)`. -/
def BIO_new_socket (allocated : Bool) (socket : Nat) : Option BIO :=
  match BIO_new allocated with
  | none => none
  | some ret => some { ret with ptr := some socket }

/-- `socket_read(b, out, outl)`; `recv` is what the wrapped socket's `Recv`
returns and `blocking` what its `IsBlocking` answers.  The result is the
return value, the `BIO` afterwards and the calls made on the socket. -/
def socket_read (b : BIO) (out : Option Nat) (outl : Int) (recv : Int) (blocking : Bool) :
    Int × BIO × List SocketCall :=
  match out with
  | none => (-1, b, [])
  | some out =>
    let b := BIO_clear_retry_flags b
    let result := recv
    if result > 0 then (result, b, [SocketCall.Recv out outl])
    else if result = 0 then (-1, { b with num := 1 }, [SocketCall.Recv out outl])
    else if blocking then
      (-1, BIO_set_retry_read b, [SocketCall.Recv out outl, SocketCall.IsBlocking])
    else (-1, b, [SocketCall.Recv out outl, SocketCall.IsBlocking])

/-- `socket_write(b, in, inl)`; `send` is what the wrapped socket's `Send`
returns and `blocking` what its `IsBlocking` answers. -/
def socket_write (b : BIO) (inp : Option Nat) (inl : Int) (send : Int) (blocking : Bool) :
    Int × BIO × List SocketCall :=
  match inp with
  | none => (-1, b, [])
  | some inp =>
    let b := BIO_clear_retry_flags b
    let result := send
    if result > 0 then (result, b, [SocketCall.Send inp inl])
    else if blocking then
      (-1, BIO_set_retry_write b, [SocketCall.Send inp inl, SocketCall.IsBlocking])
    else (-1, b, [SocketCall.Send inp inl, SocketCall.IsBlocking])

/-- `socket_puts(b, str)`; the string is its address and its text. -/
def socket_puts (b : BIO) (str : Nat) (text : List Char) (send : Int) (blocking : Bool) :
    Int × BIO × List SocketCall :=
  socket_write b (some str) (text.length : Int) send blocking

/-- `socket_ctrl(b, cmd, num, ptr)`; the last two arguments are unused. -/
def socket_ctrl (b : BIO) (cmd : Int) (_num : Int) (_ptr : Nat) : Int :=
  if cmd = BIO_CTRL_RESET then 0
  else if cmd = BIO_CTRL_EOF then b.num
  else if cmd = BIO_CTRL_WPENDING ∨ cmd = BIO_CTRL_PENDING then 0
  else if cmd = BIO_CTRL_FLUSH then 1
  else 0

/-! ## Vocabulary of the statements -/

/-- The Common Name of a certificate: the text of the first commonName
attribute of its subject, when there is one. -/
def X509.common_name (cert : X509) : Option (List Char) :=
  match cert.subject with
  | none => none
  | some subject =>
    (subject.entries.find? (fun e => e.1 == NID_commonName)).map (fun e => e.2)

/-- Some SAN entry of type `DNS` that the engine can decode matches the host. -/
def san_dns_match (cert : X509) (host : List Char) : Prop :=
  cert.alt_name_method = true ∧
    ∃ e ∈ cert.extensions, e.nid = NID_subject_alt_name ∧
      ∃ v ∈ e.value, v.name = ['D', 'N', 'S'] ∧ string_match host v.value = true

instance (cert : X509) (host : List Char) : Decidable (san_dns_match cert host) := by
  unfold san_dns_match
  infer_instance

/-- The events that are calls into the TLS engine. -/
def Event.is_engine_call : Event → Bool
  | Event.SSL_CTX_new => true
  | Event.d2i_X509 => true
  | Event.X509_STORE_add_cert => true
  | Event.SSL_CTX_free => true
  | Event.BIO_new => true
  | Event.BIO_free => true
  | Event.SSL_new => true
  | Event.SSL_free => true
  | Event.SSL_connect => true
  | Event.SSL_write _ _ => true
  | Event.SSL_read _ _ => true
  | _ => false

/-- The settings of an adapter that only `StartSSL` and the caller change: the
peer host name, the restartable flag and the ignore-bad-cert switch. -/
def same_settings (a b : Adapter) : Prop :=
  b.ssl_host_name_ = a.ssl_host_name_ ∧ b.restartable_ = a.restartable_ ∧
    b.ignore_bad_cert_ = a.ignore_bad_cert_

instance (a b : Adapter) : Decidable (same_settings a b) := by
  unfold same_settings
  infer_instance

/-- The events that are notifications signalled to the caller of the adapter. -/
def Event.is_notification : Event → Bool
  | Event.SignalConnectEvent => true
  | Event.SignalReadEvent => true
  | Event.SignalWriteEvent => true
  | Event.SignalCloseEvent _ => true
  | _ => false

/-- The events that are close notifications. -/
def Event.is_close_notification : Event → Bool
  | Event.SignalCloseEvent _ => true
  | _ => false

/-- The events that are calls on the wrapped socket. -/
def Event.is_socket_call : Event → Bool
  | Event.socket_GetState => true
  | Event.socket_Send _ _ => true
  | Event.socket_Recv _ _ => true
  | Event.socket_Close => true
  | Event.SetError _ => true
  | _ => false

/-- The operations a caller and the wrapped socket can perform on an adapter:
the calls `StartSSL`, `Send`, `Recv`, `Close`, and the connect, read and write
readiness events. -/
inductive Op where
  | StartSSL (hostname : List Char) (restartable : Bool)
  | Send (pv cb : Nat)
  | Recv (pv cb : Nat)
  | Close
  | OnConnectEvent
  | OnReadEvent
  | OnWriteEvent
deriving DecidableEq, Repr

/-- One operation run on an adapter in an environment: the adapter afterwards
and the trace of the operation. -/
def run_op (env : Env) : Op → Adapter → Adapter × List Event
  | Op.StartSSL hostname restartable, a => (StartSSL env hostname restartable a).2
  | Op.Send pv cb, a => (Send env pv cb a).2
  | Op.Recv pv cb, a => (Recv env pv cb a).2
  | Op.Close, a => (Close env a).2
  | Op.OnConnectEvent, a => OnConnectEvent env a
  | Op.OnReadEvent, a => OnReadEvent env a
  | Op.OnWriteEvent, a => OnWriteEvent env a

/-- The adapters reachable from a freshly constructed one by a sequence of
operations, each in an environment of its own. -/
inductive Reachable : Adapter → Prop where
  | new : Reachable Adapter.new
  | step (env : Env) (op : Op) {a : Adapter} : Reachable a → Reachable (run_op env op a).1

/-- The adapter holds no handshake state: no engine session, no verification
context, both blocked flags and the override flag clear. -/
def no_handshake_state (a : Adapter) : Prop :=
  a.ssl_ = none ∧ a.ssl_ctx_ = none ∧ a.ssl_read_needs_write_ = false ∧
    a.ssl_write_needs_read_ = false ∧ a.custom_verification_succeeded_ = false

instance (a : Adapter) : Decidable (no_handshake_state a) := by
  unfold no_handshake_state
  infer_instance

/-- What the state of an adapter tells about its engine session: in
`SSL_NONE` and `SSL_WAIT` there is no handshake state at all, in
`SSL_CONNECTING` and `SSL_CONNECTED` there is a session. -/
def session_invariant (a : Adapter) : Prop :=
  ((a.state_ = SSLState.SSL_NONE ∨ a.state_ = SSLState.SSL_WAIT) → no_handshake_state a) ∧
  ((a.state_ = SSLState.SSL_CONNECTING ∨ a.state_ = SSLState.SSL_CONNECTED) →
    a.ssl_.isSome = true)

/-- The first statement of `BeginSSL`, `if (!ssl_ctx_) ssl_ctx_ =
SetupSSLContext()`: the context the handshake goes on with and the trace of
making it. -/
def BeginSSL_context (env : Env) (a : Adapter) : Option SSL_CTX × List Event :=
  if a.ssl_ctx_.isNone then SetupSSLContext env else (a.ssl_ctx_, [])

/-- Every engine object that `BeginSSL` needs before the first handshake step
can be had: a context (the adapter's own, or a new one with the trusted root
loaded), a bridge to the socket and a session. -/
def engine_objects_available (env : Env) (a : Adapter) : Bool :=
  (a.ssl_ctx_.isSome || (env.ctx_new.isSome && env.root_cert_parsed && env.root_cert_added)) &&
    env.bio_new && env.ssl_new.isSome

/-- One call of the engine into the bridge, with what the wrapped socket
answers during it: a read, a write, a puts or a control call. -/
inductive BridgeOp where
  | read (out : Option Nat) (outl : Int) (recv : Int) (blocking : Bool)
  | write (inp : Option Nat) (inl : Int) (send : Int) (blocking : Bool)
  | puts (str : Nat) (text : List Char) (send : Int) (blocking : Bool)
  | ctrl (cmd : Int) (num : Int) (ptr : Nat)
deriving DecidableEq, Repr

/-- One bridge call run on a `BIO`: its return value and the `BIO` afterwards. -/
def run_bridge_op (b : BIO) : BridgeOp → Int × BIO
  | BridgeOp.read out outl recv blocking =>
    ((socket_read b out outl recv blocking).1, (socket_read b out outl recv blocking).2.1)
  | BridgeOp.write inp inl send blocking =>
    ((socket_write b inp inl send blocking).1, (socket_write b inp inl send blocking).2.1)
  | BridgeOp.puts str text send blocking =>
    ((socket_puts b str text send blocking).1, (socket_puts b str text send blocking).2.1)
  | BridgeOp.ctrl cmd num ptr => (socket_ctrl b cmd num ptr, b)

/-- A sequence of bridge calls run in order on a `BIO`: the `BIO` afterwards. -/
def run_bridge_ops (b : BIO) : List BridgeOp → BIO
  | [] => b
  | op :: rest => run_bridge_ops (run_bridge_op b op).2 rest

/-- The bridge call is a read into a non-null buffer during which the wrapped
socket's `Recv` returned 0. -/
def BridgeOp.received_zero : BridgeOp → Bool
  | BridgeOp.read (some _) _ recv _ => recv == 0
  | _ => false

/-! ## Sample data -/

/-- A certificate whose only name is one subjectAltName entry of type `DNS`:
no other extension and no subject. -/
def san_only_cert (entry : List Char) : X509 :=
  { extensions :=
      [{ nid := NID_subject_alt_name
         value := [{ name := ['D', 'N', 'S'], value := entry }] }]
    alt_name_method := true
    subject := none }

/-- A certificate with no extension whose subject has the given Common Name. -/
def cn_only_cert (cn : List Char) : X509 :=
  { extensions := []
    alt_name_method := true
    subject := some { entries := [(NID_commonName, cn)] } }

/-- A Common Name with a NUL byte inside: `shop.example.com`, a NUL byte, then
`.evil.com`. -/
def cn_with_nul : List Char :=
  "shop.example.com".toList ++ NUL :: ".evil.com".toList

/-- An environment for the examples: the wrapped socket is not connected, its
`Send` takes 5 bytes and its `Recv` gives 7, and the engine would complete a
handshake at once; no custom predicate is configured. -/
def sample_env : Env :=
  { socket_state := ConnState.CS_CLOSED
    socket_send := 5
    socket_recv := 7
    socket_close := 0
    ctx_new := some ⟨1⟩
    root_cert_parsed := true
    root_cert_added := true
    bio_new := true
    ssl_new := some ⟨none, 0⟩
    connect := ⟨1, 0, ⟨none, 0⟩, []⟩
    write_code := 0
    write_error := 0
    read_code := 0
    read_error := 0
    custom_verify_callback_ := none }

/-- Engine error class of a failure inside the TLS library; the adapter has
no case of its own for it. -/
def SSL_ERROR_SSL : Int := 1

/-- An environment in which the wrapped socket is connected, every engine
object can be created, and the handshake step goes as given. -/
def env_handshake (step : HandshakeStep) : Env :=
  { sample_env with socket_state := ConnState.CS_CONNECTED, connect := step }

/-- A handshake step that completes with a peer certificate whose only name is
the SAN entry `*.example.com` and with the given chain verification result. -/
def step_complete (verify_result : Int) : HandshakeStep :=
  ⟨1, SSL_ERROR_NONE, ⟨some (san_only_cert "*.example.com".toList), verify_result⟩, []⟩

/-- A handshake step that needs more input from the peer. -/
def step_want_read : HandshakeStep := ⟨-1, SSL_ERROR_WANT_READ, ⟨none, 0⟩, []⟩

/-- A handshake step that the engine aborts with a fatal error. -/
def step_fatal : HandshakeStep := ⟨-1, SSL_ERROR_SSL, ⟨none, 0⟩, []⟩

/-- An adapter in the middle of a handshake: `StartSSL` on a connected socket,
with a first handshake step that needs more input. -/
def adapter_handshaking : Adapter :=
  (StartSSL (env_handshake step_want_read) "shop.example.com".toList false Adapter.new).2.1

/-- An established adapter: `StartSSL` on a connected socket, with a handshake
that completes in the first step and passes the post-connection check. -/
def adapter_established : Adapter :=
  (StartSSL (env_handshake (step_complete X509_V_OK)) "shop.example.com".toList false
    Adapter.new).2.1

/-- A restartable adapter waiting for the connect event: `StartSSL` with the
restartable flag on a socket that is not connected. -/
def adapter_waiting : Adapter :=
  (StartSSL sample_env "shop.example.com".toList true Adapter.new).2.1

/-! ## Lemmas on strings -/

theorem char_toNat_eq {a b : Char} (h : a.toNat = b.toNat) : a = b := by
  apply Char.ext
  apply UInt32.ext
  exact h

/-- `_stricmp` returns `0` exactly for two strings equal up to letter case. -/
theorem stricmp_eq_zero_iff (a b : List Char) :
    _stricmp a b = 0 ↔ a.map tolower = b.map tolower := by
  induction a generalizing b with
  | nil => cases b <;> simp [_stricmp]
  | cons x xs ih =>
    cases b with
    | nil => simp [_stricmp]
    | cons y ys =>
      by_cases hxy : tolower x = tolower y
      · simp [_stricmp, hxy, ih]
      · have hne : (tolower x).toNat ≠ (tolower y).toNat := fun h => hxy (char_toNat_eq h)
        simp only [_stricmp, hxy, if_false, List.map_cons, List.cons.injEq, false_and, iff_false]
        omega

/-- Splitting at the first dot: the part before it has no dot, and what
follows starts with the dot when there is one. -/
theorem split_first_dot (l : List Char) :
    l.takeWhile (fun c => c != '.') ++ l.dropWhile (fun c => c != '.') = l ∧
    '.' ∉ l.takeWhile (fun c => c != '.') ∧
    (l.dropWhile (fun c => c != '.') = [] ∨
      ∃ tail, l.dropWhile (fun c => c != '.') = '.' :: tail) := by
  induction l with
  | nil => simp
  | cons x xs ih =>
    by_cases hx : x = '.'
    · subst hx
      simp [List.takeWhile, List.dropWhile]
    · have hb : (x != '.') = true := by simpa using hx
      simp only [List.takeWhile, List.dropWhile, hb, List.cons_append, ih.1, List.mem_cons,
        not_or, true_and]
      exact ⟨⟨fun h => hx h.symm, ih.2.1⟩, ih.2.2⟩

/-- A string that is a dot-free label, a dot and a tail splits at that dot. -/
theorem split_label_dot (label tail : List Char) (h : '.' ∉ label) :
    (label ++ '.' :: tail).takeWhile (fun c => c != '.') = label ∧
    (label ++ '.' :: tail).dropWhile (fun c => c != '.') = '.' :: tail := by
  induction label with
  | nil => simp [List.takeWhile, List.dropWhile]
  | cons x xs ih =>
    have hx : x ≠ '.' := fun e => h (by simp [e])
    have hxs : '.' ∉ xs := fun e => h (by simp [e])
    have hb : (x != '.') = true := by simpa using hx
    simp [List.takeWhile, List.dropWhile, hb, ih hxs]

/-- The wildcard case of `string_match`, stated on the labels of the target. -/
theorem string_match_wildcard (host rest : List Char) :
    string_match host ('*' :: '.' :: rest) = true ↔
      ∃ label tail, host = label ++ '.' :: tail ∧ label ≠ [] ∧ '.' ∉ label ∧
        tail.map tolower = rest.map tolower := by
  obtain ⟨hsplit, hnodot, hdrop⟩ := split_first_dot host
  constructor
  · intro h
    rcases hdrop with hd | ⟨tail, hd⟩
    · simp [string_match, hd] at h
    · simp only [string_match, hd, Bool.and_eq_true, Bool.not_eq_true', beq_iff_eq] at h
      refine ⟨host.takeWhile (fun c => c != '.'), tail, ?_, ?_, hnodot, ?_⟩
      · rw [← hd, hsplit]
      · intro e
        rw [e] at h
        simp at h
      · exact (stricmp_eq_zero_iff _ _).1 h.2
  · rintro ⟨label, tail, rfl, hne, hnd, heq⟩
    obtain ⟨ht, hd⟩ := split_label_dot label tail hnd
    simp only [string_match, hd, ht, Bool.and_eq_true, Bool.not_eq_true', beq_iff_eq]
    refine ⟨?_, (stricmp_eq_zero_iff _ _).2 heq⟩
    cases label with
    | nil => exact absurd rfl hne
    | cons _ _ => rfl

/-- The case of `string_match` without a leading wildcard label. -/
theorem string_match_plain (host pattern : List Char)
    (h : ∀ rest, pattern ≠ '*' :: '.' :: rest) :
    string_match host pattern = true ↔ host.map tolower = pattern.map tolower := by
  unfold string_match
  split
  · exact absurd rfl (h _)
  · simp [stricmp_eq_zero_iff]

/-! ## Lemmas on the scan of the certificate -/

theorem scan_alt_names_iff (host : List Char) (vs : List CONF_VALUE) :
    scan_alt_names host vs = true ↔
      ∃ v ∈ vs, v.name = ['D', 'N', 'S'] ∧ string_match host v.value = true := by
  induction vs with
  | nil => simp [scan_alt_names]
  | cons v rest ih =>
    by_cases hv : v.name = ['D', 'N', 'S'] ∧ string_match host v.value = true
    · simp [scan_alt_names, hv]
    · have hv2 : ¬ (v.name = ['D', 'N', 'S'] ∧ string_match host v.value = true) := hv
      simp only [not_and, Bool.not_eq_true] at hv
      by_cases hn : v.name = ['D', 'N', 'S']
      · simp [scan_alt_names, hn, hv hn, ih]
      · simp [scan_alt_names, hn, ih]

theorem scan_extensions_iff (meth : Bool) (host : List Char) (exts : List X509_EXTENSION) :
    scan_extensions meth host exts = true ↔
      meth = true ∧ ∃ e ∈ exts, e.nid = NID_subject_alt_name ∧
        scan_alt_names host e.value = true := by
  induction exts with
  | nil => simp [scan_extensions]
  | cons e rest ih =>
    by_cases hn : e.nid = NID_subject_alt_name
    · cases meth with
      | false => simp [scan_extensions, hn]
      | true =>
        by_cases hs : scan_alt_names host e.value = true
        · simp [scan_extensions, hn, hs]
        · simp only [Bool.not_eq_true] at hs
          simp [scan_extensions, hn, hs, ih]
    · simp [scan_extensions, hn, ih]

/-- The scan of the extensions succeeds exactly when a decodable SAN entry of
type `DNS` matches. -/
theorem scan_extensions_eq_true_iff (cert : X509) (host : List Char) :
    scan_extensions cert.alt_name_method host cert.extensions = true ↔
      san_dns_match cert host := by
  simp only [scan_extensions_iff, scan_alt_names_iff, san_dns_match]

/-- A NUL byte ends the C string of an array, whatever follows it. -/
theorem c_str_append_nul (x y : List Char) : c_str (x ++ NUL :: y) = c_str x := by
  induction x with
  | nil => simp [c_str, List.takeWhile]
  | cons a x ih =>
    unfold c_str at ih ⊢
    by_cases ha : a = NUL
    · simp [List.takeWhile, ha]
    · have hb : (a != NUL) = true := by simpa using ha
      simp only [List.cons_append, List.takeWhile_cons, hb, if_true, ih]

/-- An array without a NUL byte is read whole. -/
theorem c_str_of_not_mem (l : List Char) (h : NUL ∉ l) : c_str l = l := by
  induction l with
  | nil => rfl
  | cons a l ih =>
    have ha : a ≠ NUL := fun e => h (by simp [e])
    have hl : NUL ∉ l := fun e => h (by simp [e])
    have hb : (a != NUL) = true := by simpa using ha
    have ih2 := ih hl
    unfold c_str at ih2 ⊢
    simp only [List.takeWhile, hb, ih2]

/-- The C string of an array holds no NUL byte. -/
theorem nul_not_mem_c_str (l : List Char) : NUL ∉ c_str l := by
  induction l with
  | nil => simp [c_str]
  | cons a l ih =>
    unfold c_str at ih ⊢
    by_cases ha : a = NUL
    · simp [List.takeWhile, ha]
    · have hb : (a != NUL) = true := by simpa using ha
      simp only [List.takeWhile, hb, List.mem_cons, not_or]
      exact ⟨fun e => ha e.symm, ih⟩

/-- Writing a NUL at or after the terminator of a written prefix changes
nothing of the prefix. -/
theorem set_terminator (x : List Char) (n : Nat) (h : x.length ≤ n) :
    (x ++ [NUL]).set n NUL = x ++ [NUL] := by
  induction x generalizing n with
  | nil => cases n <;> simp [List.set]
  | cons a x ih =>
    cases n with
    | zero => simp at h
    | succ n =>
      have hx : x.length ≤ n := by simpa using h
      simp [List.set, ih n hx]

/-- What the comparison reads from `data` after the engine has copied a value
into it: the C string of the value's first 255 bytes; the engine's count is
positive exactly for a non-empty value. -/
theorem get_text_buffer (l : List Char) :
    ((((if l.length > sizeof_data - 1 then sizeof_data - 1 else l.length : Nat) : Int) > 0) ↔
      l ≠ []) ∧
    c_str ((l.take (if l.length > sizeof_data - 1 then sizeof_data - 1 else l.length) ++
      [NUL]).set (sizeof_data - 1) NUL) = c_str (l.take 255) := by
  have hs : sizeof_data - 1 = 255 := rfl
  rw [hs]
  constructor
  · cases l with
    | nil => simp
    | cons a l =>
      simp only [List.length_cons, ne_eq, reduceCtorEq, not_false_eq_true, iff_true]
      split_ifs <;> omega
  · have ht : l.take (if l.length > 255 then 255 else l.length) = l.take 255 := by
      split_ifs with h
      · rfl
      · rw [List.take_of_length_le (le_refl _), List.take_of_length_le (by omega)]
    rw [ht, set_terminator _ _ (by simp), c_str_append_nul]

/-- The Common Name test of `VerifyServerName`: the engine yields a non-empty
value and the C string of its first 255 bytes equals the host up to letter
case. -/
theorem common_name_check (subject : X509_NAME) (host : List Char) :
    ((X509_NAME_get_text_by_NID subject NID_commonName sizeof_data).1 > 0 ∧
      _stricmp (c_str ((X509_NAME_get_text_by_NID subject NID_commonName sizeof_data).2.set
        (sizeof_data - 1) NUL)) host = 0) ↔
    ∃ cn, (subject.entries.find? (fun e => e.1 == NID_commonName)).map (fun e => e.2) = some cn ∧
      cn ≠ [] ∧ (c_str (cn.take 255)).map tolower = host.map tolower := by
  unfold X509_NAME_get_text_by_NID
  cases hf : subject.entries.find? (fun e => e.1 == NID_commonName) with
  | none => simp
  | some e =>
    obtain ⟨hlen, hbuf⟩ := get_text_buffer e.2
    simp only [hlen, hbuf, stricmp_eq_zero_iff, Option.map_some', Option.some.injEq,
      exists_eq_left']

/-- What `VerifyServerName` computes for a present certificate and a non-null
host: the SAN scan, else the Common Name as the comparison reads it from the
buffer, else the ignore flag. -/
theorem VerifyServerName_present (cert : X509) (host : List Char) (vr : Int) (ig : Bool) :
    VerifyServerName ⟨some cert, vr⟩ (some host) ig = true ↔
      san_dns_match cert host ∨
        (∃ cn, cert.common_name = some cn ∧ cn ≠ [] ∧
          (c_str (cn.take 255)).map tolower = host.map tolower) ∨ ig = true := by
  rw [← scan_extensions_eq_true_iff]
  simp only [VerifyServerName, X509.common_name]
  cases hs : scan_extensions cert.alt_name_method host cert.extensions
  · cases hsub : cert.subject with
    | none => cases ig <;> simp
    | some subject =>
      rw [← common_name_check subject host]
      by_cases h1 : (X509_NAME_get_text_by_NID subject NID_commonName sizeof_data).1 > 0
      · by_cases h2 : _stricmp (c_str ((X509_NAME_get_text_by_NID subject NID_commonName
            sizeof_data).2.set (sizeof_data - 1) NUL)) host = 0
        · cases ig <;> simp [h1, h2]
        · cases ig <;> simp [h1, h2]
      · cases ig <;> simp [h1]
  · simp

/-- For a Common Name without a NUL byte the comparison reads its first 255
bytes. -/
theorem c_str_take_of_not_mem (cn : List Char) (h : NUL ∉ cn) :
    c_str (cn.take 255) = cn.take 255 :=
  c_str_of_not_mem _ (fun e => h (List.mem_of_mem_take e))

/-- For a host shorter than the buffer, cutting the Common Name to the buffer
does not change the comparison. -/
theorem take_buffer_irrelevant (cn host : List Char) (h : host.length < 255) :
    (cn.take 255).map tolower = host.map tolower ↔ cn.map tolower = host.map tolower := by
  constructor
  · intro e
    have hl := congrArg List.length e
    simp only [List.length_map, List.length_take] at hl
    have : cn.length ≤ 255 := by omega
    rwa [List.take_of_length_le this] at e
  · intro e
    have hl := congrArg List.length e
    simp only [List.length_map] at hl
    have : cn.length ≤ 255 := by omega
    rwa [List.take_of_length_le this]

/-- A certificate without extensions has no SAN entry to match. -/
theorem cn_only_cert_no_san (cn host : List Char) : ¬ san_dns_match (cn_only_cert cn) host := by
  simp [san_dns_match, cn_only_cert]

/-- The C string of an array is no longer than the array. -/
theorem c_str_length_le (l : List Char) : (c_str l).length ≤ l.length := by
  induction l with
  | nil => simp [c_str]
  | cons a l ih =>
    unfold c_str at ih ⊢
    by_cases ha : a = NUL
    · simp [List.takeWhile_cons, ha]
    · have hb : (a != NUL) = true := by simpa using ha
      simp only [List.takeWhile_cons, hb, if_true, List.length_cons]
      omega

/-- A Common Name longer than the buffer is not accepted for the host equal to
it: at most its first 255 bytes are compared. -/
theorem cn_only_cert_buffer (cn : List Char) (h : 255 < cn.length) :
    VerifyServerName ⟨some (cn_only_cert cn), 0⟩ (some cn) false = false := by
  rw [Bool.eq_false_iff, Ne, VerifyServerName_present]
  rintro (hs | ⟨cn2, hcn, -, heq⟩ | hi)
  · exact cn_only_cert_no_san _ _ hs
  · have hcn2 : cn2 = cn := by
      have : (cn_only_cert cn).common_name = some cn := rfl
      rw [this] at hcn
      exact (Option.some.inj hcn).symm
    subst hcn2
    have hl := congrArg List.length heq
    have hle := c_str_length_le (cn2.take 255)
    simp only [List.length_map, List.length_take] at hl hle
    omega
  · exact Bool.false_ne_true hi

/-- The Common Name test for a certificate whose Common Name holds no NUL
byte: the first 255 bytes are compared with the host. -/
theorem common_name_test_without_nul (cert : X509) (host : List Char)
    (h : ∀ cn, cert.common_name = some cn → NUL ∉ cn) :
    (∃ cn, cert.common_name = some cn ∧ cn ≠ [] ∧
      (c_str (cn.take 255)).map tolower = host.map tolower) ↔
    ∃ cn, cert.common_name = some cn ∧ cn ≠ [] ∧
      (cn.take 255).map tolower = host.map tolower := by
  constructor
  · rintro ⟨cn, hcn, hne, heq⟩
    rw [c_str_take_of_not_mem cn (h cn hcn)] at heq
    exact ⟨cn, hcn, hne, heq⟩
  · rintro ⟨cn, hcn, hne, heq⟩
    rw [← c_str_take_of_not_mem cn (h cn hcn)] at heq
    exact ⟨cn, hcn, hne, heq⟩

/-- The only Common Name of `cn_only_cert cn` is `cn`. -/
theorem cn_only_cert_common_name (cn cn2 : List Char)
    (h : (cn_only_cert cn).common_name = some cn2) : cn2 = cn := by
  have h2 : (cn_only_cert cn).common_name = some cn := rfl
  rw [h2] at h
  exact (Option.some.inj h).symm

/-! ## The certificate verifier -/

/-- C1: `SSLPostConnectionCheck` returns true if and only if the
ignore-bad-cert switch is set, or `VerifyServerName` succeeds and the engine's
chain verification result is OK or `custom_verification_succeeded_` is true.
With the switch set it returns true for every session and host (an absent peer
certificate included); with the switch clear it is false as soon as the host
name check fails or the chain result is not OK without the override. -/
theorem SSLPostConnectionCheck_iff (a : Adapter) (ssl : SSL) (host : Option (List Char)) :
    (SSLPostConnectionCheck a ssl host = true ↔
      a.ignore_bad_cert_ = true ∨
        (VerifyServerName ssl host a.ignore_bad_cert_ = true ∧
          (ssl.verify_result = X509_V_OK ∨ a.custom_verification_succeeded_ = true))) ∧
    SSLPostConnectionCheck { a with ignore_bad_cert_ := true } ssl host = true ∧
    SSLPostConnectionCheck { a with ignore_bad_cert_ := false } ssl host =
      (VerifyServerName ssl host false &&
        (decide (ssl.verify_result = X509_V_OK) || a.custom_verification_succeeded_)) := by
  refine ⟨?_, ?_, ?_⟩
  · unfold SSLPostConnectionCheck
    by_cases hr : ssl.verify_result = X509_V_OK <;>
      cases hi : a.ignore_bad_cert_ <;> cases hv : VerifyServerName ssl host _ <;>
      cases hc : a.custom_verification_succeeded_ <;> simp [hr]
  · unfold SSLPostConnectionCheck
    by_cases hr : ssl.verify_result = X509_V_OK <;>
      cases hv : VerifyServerName ssl host true <;>
      cases hc : a.custom_verification_succeeded_ <;> simp [hv, hr]
  · unfold SSLPostConnectionCheck
    by_cases hr : ssl.verify_result = X509_V_OK <;>
      cases hv : VerifyServerName ssl host false <;>
      cases hc : a.custom_verification_succeeded_ <;> simp [hv, hr]

/-- C2: with the ignore flag clear, a certificate whose only name is a SAN DNS
entry is accepted for a host exactly when `string_match` matches the entry.  An
entry `*.rest` matches the hosts made of one non-empty dot-free label, a dot
and a remainder equal to `rest` up to letter case; an entry without the leading
wildcard label matches the hosts equal to it up to letter case.  So
`*.example.com` matches `foo.example.com` and `bar.example.com` but neither
`example.com` nor `a.b.example.com`. -/
theorem san_wildcard_matches_one_label :
    (∀ (entry host : List Char) (vr : Int),
      VerifyServerName ⟨some (san_only_cert entry), vr⟩ (some host) false =
        string_match host entry) ∧
    (∀ host rest : List Char,
      string_match host ('*' :: '.' :: rest) = true ↔
        ∃ label tail, host = label ++ '.' :: tail ∧ label ≠ [] ∧ '.' ∉ label ∧
          tail.map tolower = rest.map tolower) ∧
    (∀ host pattern : List Char, (∀ rest, pattern ≠ '*' :: '.' :: rest) →
      (string_match host pattern = true ↔ host.map tolower = pattern.map tolower)) ∧
    VerifyServerName ⟨some (san_only_cert "*.example.com".toList), 0⟩
      (some "foo.example.com".toList) false = true ∧
    VerifyServerName ⟨some (san_only_cert "*.example.com".toList), 0⟩
      (some "bar.example.com".toList) false = true ∧
    VerifyServerName ⟨some (san_only_cert "*.example.com".toList), 0⟩
      (some "example.com".toList) false = false ∧
    VerifyServerName ⟨some (san_only_cert "*.example.com".toList), 0⟩
      (some "a.b.example.com".toList) false = false := by
  refine ⟨?_, string_match_wildcard, string_match_plain, by decide, by decide, by decide,
    by decide⟩
  intro entry host vr
  cases hm : string_match host entry <;>
    simp [VerifyServerName, san_only_cert, scan_extensions, scan_alt_names, hm]

/-- C2, at an entry without a wildcard: `Example.COM` matches the host
`example.com`, which equals it up to letter case. -/
theorem san_wildcard_matches_one_label_witness :
    string_match "example.com".toList "Example.COM".toList = true :=
  (san_wildcard_matches_one_label.2.2.1 "example.com".toList "Example.COM".toList
    (by intro rest h; cases h)).2 (by decide)

/-- C3, the claim as stated fails, in both directions.  For a host of 256
characters and a certificate without SAN whose Common Name is that same text,
no SAN entry matches and the Common Name is non-empty and equal to the host,
yet `VerifyServerName` returns false: the comparison buffer holds only the
first 255 bytes of the Common Name.  For the Common Name `shop.example.com`,
a NUL byte, `.evil.com` and the host `shop.example.com`, no SAN entry matches
and the Common Name is not equal to the host, yet `VerifyServerName` returns
true: the buffer is compared as a C string, which ends at the NUL byte. -/
theorem common_name_not_compared_whole :
    (VerifyServerName ⟨some (cn_only_cert (List.replicate 256 'a')), 0⟩
        (some (List.replicate 256 'a')) false = false ∧
      ¬ san_dns_match (cn_only_cert (List.replicate 256 'a')) (List.replicate 256 'a') ∧
      ∃ cn, (cn_only_cert (List.replicate 256 'a')).common_name = some cn ∧ cn ≠ [] ∧
        cn.map tolower = (List.replicate 256 'a').map tolower) ∧
    (VerifyServerName ⟨some (cn_only_cert cn_with_nul), 0⟩
        (some "shop.example.com".toList) false = true ∧
      ¬ san_dns_match (cn_only_cert cn_with_nul) "shop.example.com".toList ∧
      ¬ ∃ cn, (cn_only_cert cn_with_nul).common_name = some cn ∧ cn ≠ [] ∧
        cn.map tolower = ("shop.example.com".toList).map tolower) := by
  have hlen : (List.replicate 256 'a').length = 256 := List.length_replicate _ _
  refine ⟨⟨cn_only_cert_buffer _ (by omega), cn_only_cert_no_san _ _,
    List.replicate 256 'a', rfl, ?_, rfl⟩, by decide, cn_only_cert_no_san _ _, ?_⟩
  · intro h
    rw [h] at hlen
    exact absurd hlen (by decide)
  · rintro ⟨cn, hcn, -, heq⟩
    have hc := cn_only_cert_common_name _ _ hcn
    subst hc
    have hl := congrArg List.length heq
    simp [cn_with_nul] at hl

/-- C3 (amended): for a present certificate whose Common Name holds no NUL
byte and a non-null host, with the ignore flag clear, `VerifyServerName`
returns true if and only if some SAN entry of type DNS matches the host, or
none matches and the Common Name is non-empty and its first 255 bytes (what
the comparison buffer holds) equal the host up to letter case, without any
wildcard; a SAN match gives true whatever the Common Name and the flag are;
for a host of fewer than 255 characters the cut plays no part.  Nothing is said
of a Common Name with a NUL byte when no SAN entry matches. -/
theorem VerifyServerName_san_then_common_name (cert : X509) (host : List Char) (vr : Int) :
    ((∀ cn, cert.common_name = some cn → NUL ∉ cn) →
      (VerifyServerName ⟨some cert, vr⟩ (some host) false = true ↔
        san_dns_match cert host ∨
          (¬ san_dns_match cert host ∧
            ∃ cn, cert.common_name = some cn ∧ cn ≠ [] ∧
              (cn.take 255).map tolower = host.map tolower))) ∧
    (san_dns_match cert host →
      ∀ ig, VerifyServerName ⟨some cert, vr⟩ (some host) ig = true) ∧
    ((∀ cn, cert.common_name = some cn → NUL ∉ cn) → host.length < 255 →
      (VerifyServerName ⟨some cert, vr⟩ (some host) false = true ↔
        san_dns_match cert host ∨
          (¬ san_dns_match cert host ∧
            ∃ cn, cert.common_name = some cn ∧ cn ≠ [] ∧
              cn.map tolower = host.map tolower))) := by
  refine ⟨?_, ?_, ?_⟩
  · intro hnul
    rw [VerifyServerName_present, common_name_test_without_nul cert host hnul]
    by_cases hs : san_dns_match cert host <;> simp [hs]
  · intro hs ig
    rw [VerifyServerName_present]
    exact Or.inl hs
  · intro hnul hlen
    rw [VerifyServerName_present, common_name_test_without_nul cert host hnul]
    simp only [take_buffer_irrelevant _ host hlen]
    by_cases hs : san_dns_match cert host <;> simp [hs]

/-- C3, at the certificate whose only name is the SAN entry `*.example.com`
and the host `shop.example.com`, which the entry matches, and at the
certificate whose only name is the Common Name `shop.example.com` and the host
`Shop.Example.COM`. -/
theorem VerifyServerName_san_then_common_name_witness :
    VerifyServerName ⟨some (san_only_cert "*.example.com".toList), 0⟩
        (some "shop.example.com".toList) true = true ∧
    (VerifyServerName ⟨some (cn_only_cert "shop.example.com".toList), 0⟩
        (some "Shop.Example.COM".toList) false = true ↔
      san_dns_match (cn_only_cert "shop.example.com".toList) "Shop.Example.COM".toList ∨
        (¬ san_dns_match (cn_only_cert "shop.example.com".toList) "Shop.Example.COM".toList ∧
          ∃ cn, (cn_only_cert "shop.example.com".toList).common_name = some cn ∧ cn ≠ [] ∧
            (cn.take 255).map tolower = ("Shop.Example.COM".toList).map tolower)) ∧
    (VerifyServerName ⟨some (cn_only_cert "shop.example.com".toList), 0⟩
        (some "Shop.Example.COM".toList) false = true ↔
      san_dns_match (cn_only_cert "shop.example.com".toList) "Shop.Example.COM".toList ∨
        (¬ san_dns_match (cn_only_cert "shop.example.com".toList) "Shop.Example.COM".toList ∧
          ∃ cn, (cn_only_cert "shop.example.com".toList).common_name = some cn ∧ cn ≠ [] ∧
            cn.map tolower = ("Shop.Example.COM".toList).map tolower)) :=
  ⟨(VerifyServerName_san_then_common_name (san_only_cert "*.example.com".toList)
      "shop.example.com".toList 0).2.1
      ⟨rfl, _, List.mem_singleton.2 rfl, rfl, _, List.mem_singleton.2 rfl, rfl, by decide⟩ true,
    (VerifyServerName_san_then_common_name (cn_only_cert "shop.example.com".toList)
      "Shop.Example.COM".toList 0).1
      (fun cn h => by rw [cn_only_cert_common_name _ _ h]; decide),
    (VerifyServerName_san_then_common_name (cn_only_cert "shop.example.com".toList)
      "Shop.Example.COM".toList 0).2.2
      (fun cn h => by rw [cn_only_cert_common_name _ _ h]; decide) (by decide)⟩

/-- C4, the claim as stated fails: an empty host is not null, so it passes the
first test, and with the ignore flag set `VerifyServerName` returns true for it
on a present certificate that carries no name at all. -/
theorem empty_host_not_rejected :
    VerifyServerName ⟨some { extensions := [], alt_name_method := true, subject := none }, 0⟩
      (some []) true = true := by
  decide

/-- C4 (amended): `VerifyServerName` returns false at once whenever the host
is null or the peer certificate is absent, for every certificate content and
for both values of the ignore flag; an empty host is not rejected at the
start: on a present certificate the result is then true whenever the ignore
flag is set, and when the Common Name holds no NUL byte it is true exactly
when a SAN entry of type DNS matches the empty host or the ignore flag is
set. -/
theorem VerifyServerName_early_rejections (ssl : SSL) (cert : X509)
    (host : Option (List Char)) (vr : Int) (ig : Bool) :
    VerifyServerName ssl none ig = false ∧
    VerifyServerName ⟨none, vr⟩ host ig = false ∧
    VerifyServerName ⟨some cert, vr⟩ (some []) true = true ∧
    ((∀ cn, cert.common_name = some cn → NUL ∉ cn) →
      (VerifyServerName ⟨some cert, vr⟩ (some []) ig = true ↔
        san_dns_match cert [] ∨ ig = true)) := by
  refine ⟨rfl, ?_, ?_, ?_⟩
  · cases host <;> rfl
  · rw [VerifyServerName_present]
    exact Or.inr (Or.inr rfl)
  · intro hnul
    rw [VerifyServerName_present, common_name_test_without_nul cert [] hnul]
    constructor
    · rintro (h | ⟨cn, -, hne, heq⟩ | h)
      · exact Or.inl h
      · exfalso
        cases cn with
        | nil => exact hne rfl
        | cons c cs => simp at heq
      · exact Or.inr h
    · rintro (h | h)
      · exact Or.inl h
      · exact Or.inr (Or.inr h)

/-- C4, at the certificate whose only name is the Common Name
`shop.example.com`, the empty host and the ignore flag clear: no SAN entry
matches, and the result is false. -/
theorem VerifyServerName_early_rejections_witness :
    (VerifyServerName ⟨some (cn_only_cert "shop.example.com".toList), 0⟩ (some []) false = true ↔
      san_dns_match (cn_only_cert "shop.example.com".toList) [] ∨ false = true) ∧
    VerifyServerName ⟨some (cn_only_cert "shop.example.com".toList), 0⟩ (some []) false = false :=
  ⟨(VerifyServerName_early_rejections ⟨none, 0⟩ (cn_only_cert "shop.example.com".toList)
      none 0 false).2.2.2 (fun cn h => by rw [cn_only_cert_common_name _ _ h]; decide),
    by decide⟩

/-- C5: `SSLVerifyCallback` accepts (returns non-zero) if and only if the
preliminary verdict is ok, or a custom predicate is configured and accepts the
current certificate, or the ignore-bad-cert switch of the owning adapter is
set.  The custom predicate is called exactly when the verdict is not ok and a
predicate is configured, once, with the current certificate.  The adapter
afterwards is the adapter before with `custom_verification_succeeded_` set to
true when the verdict was not ok and the predicate accepted, and is unchanged
otherwise. -/
theorem SSLVerifyCallback_accepts_iff (custom : Option (X509 → Bool)) (stream : Adapter)
    (ok : Int) (store : X509_STORE_CTX) :
    ((SSLVerifyCallback custom stream ok store).1 ≠ 0 ↔
      ok ≠ 0 ∨ (∃ f, custom = some f ∧ f store.current_cert = true) ∨
        stream.ignore_bad_cert_ = true) ∧
    (SSLVerifyCallback custom stream ok store).2.2 =
      (if ok = 0 ∧ custom.isSome then [Event.custom_verify_callback store.current_cert]
       else []) ∧
    (SSLVerifyCallback custom stream ok store).2.1 =
      (if ok = 0 ∧ ∃ f, custom = some f ∧ f store.current_cert = true then
        { stream with custom_verification_succeeded_ := true }
       else stream) := by
  unfold SSLVerifyCallback
  by_cases hok : ok = 0
  · subst hok
    cases custom with
    | none => cases hi : stream.ignore_bad_cert_ <;> simp [hi]
    | some f =>
      cases hf : f store.current_cert <;> cases hi : stream.ignore_bad_cert_ <;> simp [hf, hi]
  · cases hi : stream.ignore_bad_cert_ <;> simp [hok, hi]

/-! ## The settings are kept by the handshake -/

theorem same_settings_refl (a : Adapter) : same_settings a a := ⟨rfl, rfl, rfl⟩

theorem same_settings_trans {a b c : Adapter} (h1 : same_settings a b)
    (h2 : same_settings b c) : same_settings a c :=
  ⟨h2.1.trans h1.1, h2.2.1.trans h1.2.1, h2.2.2.trans h1.2.2⟩

theorem Cleanup_settings (a : Adapter) : same_settings a (Cleanup a).1 := ⟨rfl, rfl, rfl⟩

theorem Error_settings (a : Adapter) (err : Int) (signal : Bool) :
    same_settings a (Error a err signal).1 := ⟨rfl, rfl, rfl⟩

theorem SSLVerifyCallback_settings (custom : Option (X509 → Bool)) (a : Adapter) (ok : Int)
    (store : X509_STORE_CTX) : same_settings a (SSLVerifyCallback custom a ok store).2.1 := by
  unfold SSLVerifyCallback
  cases custom with
  | none =>
    dsimp only
    split_ifs <;> exact ⟨rfl, rfl, rfl⟩
  | some f =>
    dsimp only
    split_ifs <;> exact ⟨rfl, rfl, rfl⟩

theorem run_verify_callbacks_settings (custom : Option (X509 → Bool))
    (l : List (Int × X509_STORE_CTX)) (a : Adapter) :
    same_settings a (run_verify_callbacks custom l a).1 := by
  induction l generalizing a with
  | nil => exact same_settings_refl a
  | cons p rest ih =>
    obtain ⟨ok, store⟩ := p
    exact same_settings_trans (SSLVerifyCallback_settings custom a ok store) (ih _)

theorem SSL_connect_settings (env : Env) (a : Adapter) :
    same_settings a (SSL_connect env a).1 :=
  same_settings_trans (run_verify_callbacks_settings _ _ a) ⟨rfl, rfl, rfl⟩

theorem ContinueSSL_settings (env : Env) (a : Adapter) :
    same_settings a (ContinueSSL env a).2.1 := by
  have h := SSL_connect_settings env a
  unfold ContinueSSL
  dsimp only
  split_ifs <;> exact h

theorem BeginSSL_settings (env : Env) (a : Adapter) :
    same_settings a (BeginSSL env a).2.1 := by
  unfold BeginSSL
  dsimp only
  split_ifs <;> first
    | exact same_settings_trans ⟨rfl, rfl, rfl⟩ (Cleanup_settings _)
    | exact same_settings_trans
        (same_settings_trans ⟨rfl, rfl, rfl⟩ (ContinueSSL_settings env _)) (Cleanup_settings _)
    | exact same_settings_trans ⟨rfl, rfl, rfl⟩ (ContinueSSL_settings env _)

theorem StartSSL_settings (env : Env) (hostname : List Char) (restartable : Bool)
    (a : Adapter) (h : a.state_ = SSLState.SSL_NONE) :
    (StartSSL env hostname restartable a).2.1.ssl_host_name_ = hostname ∧
    (StartSSL env hostname restartable a).2.1.restartable_ = restartable ∧
    (StartSSL env hostname restartable a).2.2.head? = some Event.socket_GetState := by
  have hb := BeginSSL_settings env
    { a with ssl_host_name_ := hostname, restartable_ := restartable,
             state_ := SSLState.SSL_CONNECTING }
  unfold StartSSL
  simp only [h, ne_eq, not_true_eq_false, if_false]
  split_ifs <;> first
    | exact ⟨hb.1, hb.2.1, rfl⟩
    | exact ⟨rfl, rfl, rfl⟩

theorem StartSSL_refused (env : Env) (hostname : List Char) (restartable : Bool)
    (a : Adapter) (h : a.state_ ≠ SSLState.SSL_NONE) :
    StartSSL env hostname restartable a = (-1, a, []) := by
  unfold StartSSL
  rw [if_pos h]

/-- The trace of `BeginSSL` on an adapter without a context starts with the
creation of one. -/
theorem BeginSSL_begins (env : Env) (a : Adapter) (hc : a.ssl_ctx_ = none) :
    (BeginSSL env a).2.2.head? = some Event.SSL_CTX_new := by
  have hs : (SetupSSLContext env).2.head? = some Event.SSL_CTX_new := by
    unfold SetupSSLContext
    cases env.ctx_new with
    | none => rfl
    | some ctx =>
      dsimp only
      split_ifs <;> rfl
  obtain ⟨e, rest, he⟩ : ∃ e rest, (SetupSSLContext env).2 = e :: rest := by
    cases h : (SetupSSLContext env).2 with
    | nil => rw [h] at hs; cases hs
    | cons e rest => exact ⟨e, rest, rfl⟩
  rw [he] at hs
  unfold BeginSSL
  simp only [hc, Option.isNone_none, if_true]
  split_ifs <;> simp [he] <;> simpa using hs

/-- A connect event on an adapter in `SSL_WAIT` without a context begins the
handshake by creating a context. -/
theorem OnConnectEvent_begins (env : Env) (a : Adapter) (hs : a.state_ = SSLState.SSL_WAIT)
    (hc : a.ssl_ctx_ = none) :
    (OnConnectEvent env a).2.head? = some Event.SSL_CTX_new := by
  have hb := BeginSSL_begins env { a with state_ := SSLState.SSL_CONNECTING } hc
  unfold OnConnectEvent
  simp only [hs, ne_eq, not_true_eq_false, if_false]
  cases hl : (BeginSSL env { a with state_ := SSLState.SSL_CONNECTING }).2.2 with
  | nil => rw [hl] at hb; cases hb
  | cons e rest =>
    rw [hl] at hb
    split_ifs <;> simpa using hb

/-! ## One handshake step -/

theorem SSLVerifyCallback_adapter (custom : Option (X509 → Bool)) (a : Adapter) (ok : Int)
    (store : X509_STORE_CTX) :
    (SSLVerifyCallback custom a ok store).2.1 =
      { a with custom_verification_succeeded_ :=
          (SSLVerifyCallback custom a ok store).2.1.custom_verification_succeeded_ } := by
  unfold SSLVerifyCallback
  cases custom with
  | none =>
    dsimp only
    split_ifs <;> rfl
  | some f =>
    dsimp only
    split_ifs <;> rfl

theorem SSLVerifyCallback_trace (custom : Option (X509 → Bool)) (a : Adapter) (ok : Int)
    (store : X509_STORE_CTX) :
    ∀ e ∈ (SSLVerifyCallback custom a ok store).2.2,
      e = Event.custom_verify_callback store.current_cert := by
  unfold SSLVerifyCallback
  cases custom with
  | none =>
    dsimp only
    split_ifs <;> simp
  | some f =>
    dsimp only
    split_ifs <;> simp

theorem SSLVerifyCallback_no_custom (a : Adapter) (ok : Int) (store : X509_STORE_CTX) :
    (SSLVerifyCallback none a ok store).2 = (a, []) := by
  unfold SSLVerifyCallback
  dsimp only
  split_ifs <;> rfl

theorem run_verify_callbacks_adapter (custom : Option (X509 → Bool))
    (l : List (Int × X509_STORE_CTX)) (a : Adapter) :
    (run_verify_callbacks custom l a).1 =
      { a with custom_verification_succeeded_ :=
          (run_verify_callbacks custom l a).1.custom_verification_succeeded_ } := by
  induction l generalizing a with
  | nil => rfl
  | cons p rest ih =>
    obtain ⟨ok, store⟩ := p
    have h1 := SSLVerifyCallback_adapter custom a ok store
    have h2 := ih (SSLVerifyCallback custom a ok store).2.1
    simp only [run_verify_callbacks]
    rw [h2]
    rw [h1]

theorem run_verify_callbacks_trace (custom : Option (X509 → Bool))
    (l : List (Int × X509_STORE_CTX)) (a : Adapter) :
    ∀ e ∈ (run_verify_callbacks custom l a).2, ∃ cert, e = Event.custom_verify_callback cert := by
  induction l generalizing a with
  | nil => simp [run_verify_callbacks]
  | cons p rest ih =>
    obtain ⟨ok, store⟩ := p
    intro e he
    simp only [run_verify_callbacks, List.mem_append] at he
    rcases he with he | he
    · exact ⟨_, SSLVerifyCallback_trace custom a ok store e he⟩
    · exact ih _ e he

theorem run_verify_callbacks_no_custom (l : List (Int × X509_STORE_CTX)) (a : Adapter) :
    run_verify_callbacks none l a = (a, []) := by
  induction l generalizing a with
  | nil => rfl
  | cons p rest ih =>
    obtain ⟨ok, store⟩ := p
    have h1 := SSLVerifyCallback_no_custom a ok store
    simp only [run_verify_callbacks, h1, ih, List.append_nil]

/-- The adapter after `SSL_connect`: only the session and the override flag
can differ. -/
theorem SSL_connect_adapter (env : Env) (a : Adapter) :
    (SSL_connect env a).1 =
      { a with
        custom_verification_succeeded_ := (SSL_connect env a).1.custom_verification_succeeded_
        ssl_ := a.ssl_.map (fun _ => env.connect.session) } := by
  have h := run_verify_callbacks_adapter env.custom_verify_callback_ env.connect.verify a
  unfold SSL_connect
  dsimp only
  rw [h]

/-- The trace of `SSL_connect`: the engine call, then calls of the custom
predicate only. -/
theorem SSL_connect_trace (env : Env) (a : Adapter) :
    ∃ t, (SSL_connect env a).2 = Event.SSL_connect :: t ∧
      ∀ e ∈ t, ∃ cert, e = Event.custom_verify_callback cert :=
  ⟨_, rfl, run_verify_callbacks_trace _ _ a⟩

theorem SSL_connect_no_custom (env : Env) (a : Adapter)
    (h : env.custom_verify_callback_ = none) :
    SSL_connect env a =
      ({ a with ssl_ := a.ssl_.map (fun _ => env.connect.session) }, [Event.SSL_connect]) := by
  unfold SSL_connect
  rw [h, run_verify_callbacks_no_custom]

/-- The last element of a list that ends with a given one. -/
theorem getLast_cons_append_singleton {α : Type} (x y : α) (l : List α) :
    (x :: (l ++ [y])).getLast? = some y := by
  rw [← List.cons_append, List.getLast?_append]
  simp

/-- An event that is no notification is no close notification. -/
theorem not_notification_not_close (e : Event) (h : e.is_notification = false) :
    e.is_close_notification = false := by
  cases e <;> first | rfl | simp [Event.is_notification] at h

/-- Calls of the custom predicate are neither `SSL_connect` calls nor
notifications. -/
theorem callbacks_only (t : List Event)
    (h : ∀ e ∈ t, ∃ cert, e = Event.custom_verify_callback cert) :
    t.count Event.SSL_connect = 0 ∧ t.count Event.SignalConnectEvent = 0 ∧
      ∀ e ∈ t, e.is_notification = false := by
  refine ⟨?_, ?_, ?_⟩
  · rw [List.count_eq_zero]
    intro hm
    obtain ⟨c, hc⟩ := h _ hm
    cases hc
  · rw [List.count_eq_zero]
    intro hm
    obtain ⟨c, hc⟩ := h _ hm
    cases hc
  · intro e he
    obtain ⟨c, hc⟩ := h e he
    rw [hc]
    rfl

/-- The events of `Cleanup` are the frees of the session and of the context. -/
theorem Cleanup_trace (a : Adapter) :
    (Cleanup a).2.count Event.SSL_connect = 0 ∧
    (Cleanup a).2.count Event.SignalConnectEvent = 0 ∧
    ∀ e ∈ (Cleanup a).2, e.is_notification = false := by
  have ht : (Cleanup a).2 =
      (if a.ssl_.isSome then [Event.SSL_free] else []) ++
      (if a.ssl_ctx_.isSome then [Event.SSL_CTX_free] else []) := rfl
  rw [ht]
  cases a.ssl_ <;> cases a.ssl_ctx_ <;>
    simp [Option.isSome, List.count_cons, Event.is_notification]

/-- `Cleanup` leaves no handshake state and the state `SSL_NONE`. -/
theorem Cleanup_clean (a : Adapter) :
    (Cleanup a).1.state_ = SSLState.SSL_NONE ∧ no_handshake_state (Cleanup a).1 :=
  ⟨rfl, rfl, rfl, rfl, rfl, rfl⟩

/-- The four outcomes of `ContinueSSL`, by the engine's classification of the
step and the post-connection check. -/
theorem ContinueSSL_cases (env : Env) (a : Adapter) :
    (env.connect.error = SSL_ERROR_NONE ∧
      SSLPostConnectionCheck (SSL_connect env a).1 env.connect.session
        (some a.ssl_host_name_) = false ∧
      ContinueSSL env a =
        (-1, (Cleanup (SSL_connect env a).1).1,
          (SSL_connect env a).2 ++ (Cleanup (SSL_connect env a).1).2)) ∨
    (env.connect.error = SSL_ERROR_NONE ∧
      SSLPostConnectionCheck (SSL_connect env a).1 env.connect.session
        (some a.ssl_host_name_) = true ∧
      ContinueSSL env a =
        (0, { (SSL_connect env a).1 with state_ := SSLState.SSL_CONNECTED },
          (SSL_connect env a).2 ++ [Event.SignalConnectEvent])) ∨
    ((env.connect.error = SSL_ERROR_WANT_READ ∨ env.connect.error = SSL_ERROR_WANT_WRITE) ∧
      ContinueSSL env a = (0, (SSL_connect env a).1, (SSL_connect env a).2)) ∨
    (env.connect.error ≠ SSL_ERROR_NONE ∧ env.connect.error ≠ SSL_ERROR_WANT_READ ∧
      env.connect.error ≠ SSL_ERROR_WANT_WRITE ∧
      ContinueSSL env a =
        ((if env.connect.code ≠ 0 then env.connect.code else -1), (SSL_connect env a).1,
          (SSL_connect env a).2)) := by
  have hhost : (SSL_connect env a).1.ssl_host_name_ = a.ssl_host_name_ :=
    (SSL_connect_settings env a).1
  by_cases h0 : env.connect.error = SSL_ERROR_NONE
  · cases hp : SSLPostConnectionCheck (SSL_connect env a).1 env.connect.session
        (some a.ssl_host_name_)
    · left
      refine ⟨h0, rfl, ?_⟩
      simp [ContinueSSL, h0, hhost, hp]
    · right; left
      refine ⟨h0, rfl, ?_⟩
      simp [ContinueSSL, h0, hhost, hp]
  · by_cases h1 : env.connect.error = SSL_ERROR_WANT_READ
    · right; right; left
      refine ⟨Or.inl h1, ?_⟩
      simp [ContinueSSL, h1, SSL_ERROR_NONE, SSL_ERROR_WANT_READ]
    · by_cases h2 : env.connect.error = SSL_ERROR_WANT_WRITE
      · right; right; left
        refine ⟨Or.inr h2, ?_⟩
        simp [ContinueSSL, h2, SSL_ERROR_NONE, SSL_ERROR_WANT_READ, SSL_ERROR_WANT_WRITE]
      · right; right; right
        refine ⟨h0, h1, h2, ?_⟩
        simp [ContinueSSL, h0, h1, h2]

/-- The trace of `ContinueSSL` has exactly one `SSL_connect` call, no
notification but a connected one, and that one exactly when the step completes
and passes the post-connection check. -/
theorem ContinueSSL_trace (env : Env) (a : Adapter) :
    (ContinueSSL env a).2.2.count Event.SSL_connect = 1 ∧
    (∀ e ∈ (ContinueSSL env a).2.2, e.is_close_notification = false) ∧
    (ContinueSSL env a).2.2.count Event.SignalConnectEvent =
      (if (ContinueSSL env a).2.1.state_ = SSLState.SSL_CONNECTED ∧
          env.connect.error = SSL_ERROR_NONE then 1 else 0) ∧
    (env.connect.error ≠ SSL_ERROR_NONE →
      ∀ e ∈ (ContinueSSL env a).2.2, e.is_notification = false) := by
  obtain ⟨t, ht, hcb⟩ := SSL_connect_trace env a
  obtain ⟨hc1, hc2, hc3⟩ := callbacks_only t hcb
  obtain ⟨hk1, hk2, hk3⟩ := Cleanup_trace (SSL_connect env a).1
  have hclose : ∀ e : Event, e.is_notification = false → e.is_close_notification = false := by
    intro e he
    cases e <;> simp_all [Event.is_notification, Event.is_close_notification]
  rcases ContinueSSL_cases env a with ⟨h0, -, hr⟩ | ⟨h0, -, hr⟩ | ⟨h0, hr⟩ | ⟨h0, h1, h2, hr⟩
  · rw [hr, ht]
    refine ⟨?_, ?_, ?_, fun hne => absurd h0 hne⟩
    · simp [List.count_cons, hc1, hk1]
    · intro e he
      simp only [List.cons_append, List.mem_cons, List.mem_append] at he
      rcases he with he | he | he
      · rw [he]; rfl
      · exact hclose e (hc3 e he)
      · exact hclose e (hk3 e he)
    · have hs : (Cleanup (SSL_connect env a).1).1.state_ = SSLState.SSL_NONE := rfl
      simp [List.count_cons, hc2, hk2, hs]
  · rw [hr, ht]
    refine ⟨?_, ?_, ?_, fun hne => absurd h0 hne⟩
    · simp [List.count_cons, hc1]
    · intro e he
      simp only [List.cons_append, List.mem_cons, List.mem_append, List.not_mem_nil,
        or_false] at he
      rcases he with he | he | he
      · rw [he]; rfl
      · exact hclose e (hc3 e he)
      · rw [he]; rfl
    · simp [List.count_cons, hc2, h0]
  · have hne : env.connect.error ≠ SSL_ERROR_NONE := by
      rcases h0 with h0 | h0 <;> rw [h0] <;> decide
    rw [hr, ht]
    refine ⟨?_, ?_, ?_, fun _ => ?_⟩
    · simp [List.count_cons, hc1]
    · intro e he
      simp only [List.mem_cons] at he
      rcases he with he | he
      · rw [he]; rfl
      · exact hclose e (hc3 e he)
    · simp [List.count_cons, hc2, hne]
    · intro e he
      simp only [List.mem_cons] at he
      rcases he with he | he
      · rw [he]; rfl
      · exact hc3 e he
  · rw [hr, ht]
    refine ⟨?_, ?_, ?_, fun _ => ?_⟩
    · simp [List.count_cons, hc1]
    · intro e he
      simp only [List.mem_cons] at he
      rcases he with he | he
      · rw [he]; rfl
      · exact hclose e (hc3 e he)
    · simp [List.count_cons, hc2, h0]
    · intro e he
      simp only [List.mem_cons] at he
      rcases he with he | he
      · rw [he]; rfl
      · exact hc3 e he

/-- A handshake step that wants more input or output leaves the adapter as it
was but for the session's progress and the override flag, and returns 0. -/
theorem ContinueSSL_want (env : Env) (a : Adapter)
    (h : env.connect.error = SSL_ERROR_WANT_READ ∨ env.connect.error = SSL_ERROR_WANT_WRITE) :
    ContinueSSL env a = (0, (SSL_connect env a).1, (SSL_connect env a).2) := by
  have hne : env.connect.error ≠ SSL_ERROR_NONE := by
    rcases h with h | h <;> rw [h] <;> decide
  rcases ContinueSSL_cases env a with ⟨h0, -, -⟩ | ⟨h0, -, -⟩ | ⟨-, hr⟩ | ⟨-, h1, h2, -⟩
  · exact absurd h0 hne
  · exact absurd h0 hne
  · exact hr
  · rcases h with h | h
    · exact absurd h h1
    · exact absurd h h2

/-! ## The beginning of a handshake -/

theorem BeginSSL_context_spec (env : Env) (a : Adapter) :
    (BeginSSL_context env a).1.isSome =
      (a.ssl_ctx_.isSome ||
        (env.ctx_new.isSome && env.root_cert_parsed && env.root_cert_added)) ∧
    (∀ e ∈ (BeginSSL_context env a).2, e.is_notification = false) ∧
    (BeginSSL_context env a).2.count Event.SignalConnectEvent = 0 := by
  unfold BeginSSL_context SetupSSLContext ConfigureTrustedRootCertificates
  cases a.ssl_ctx_ <;> cases env.ctx_new <;> cases env.root_cert_parsed <;>
    cases env.root_cert_added <;> simp [Event.is_notification]

/-- When an engine object is missing, `BeginSSL` returns `-1` after a
`Cleanup`, without any notification. -/
theorem BeginSSL_unavailable (env : Env) (a : Adapter)
    (h : engine_objects_available env a = false) :
    ∃ x t, BeginSSL env a = (-1, (Cleanup x).1, t) ∧ ∀ e ∈ t, e.is_notification = false := by
  obtain ⟨h1, h2, -⟩ := BeginSSL_context_spec env a
  have hk := fun x => (Cleanup_trace x).2.2
  unfold engine_objects_available at h
  rw [← h1] at h
  unfold BeginSSL
  rw [← BeginSSL_context]
  dsimp only
  by_cases hc : (BeginSSL_context env a).1.isNone = true
  · rw [if_pos hc]
    refine ⟨_, _, rfl, ?_⟩
    intro e he
    rcases List.mem_append.1 he with he | he
    · exact h2 e he
    · exact hk _ e he
  · rw [if_neg hc]
    have hc2 : (BeginSSL_context env a).1.isSome = true := by
      cases hx : (BeginSSL_context env a).1 <;> simp_all
    by_cases hb : env.bio_new = true
    · have hs : env.ssl_new.isNone = true := by
        cases hx : env.ssl_new <;> simp_all
      simp only [hb, Bool.not_true, Bool.false_eq_true, if_false, hs, if_true]
      refine ⟨_, _, rfl, ?_⟩
      intro e he
      simp only [List.mem_append, List.mem_cons, List.not_mem_nil, or_false] at he
      rcases he with ((he | he | he) | he) | he
      · exact h2 e he
      · rw [he]; rfl
      · rw [he]; rfl
      · exact hk _ e he
      · rw [he]; rfl
    · simp only [Bool.not_eq_true] at hb
      simp only [hb, Bool.not_false, if_true]
      refine ⟨_, _, rfl, ?_⟩
      intro e he
      simp only [List.mem_append, List.mem_cons, List.not_mem_nil, or_false] at he
      rcases he with (he | he) | he
      · exact h2 e he
      · rw [he]; rfl
      · exact hk _ e he

/-- When every engine object can be had, `BeginSSL` runs one handshake step on
the adapter with its context and a new session, and cleans up when the step
fails. -/
theorem BeginSSL_available (env : Env) (a : Adapter)
    (h : engine_objects_available env a = true) :
    BeginSSL env a =
      (if (ContinueSSL env
            { a with ssl_ctx_ := (BeginSSL_context env a).1, ssl_ := env.ssl_new }).1 ≠ 0 then
        ((ContinueSSL env
            { a with ssl_ctx_ := (BeginSSL_context env a).1, ssl_ := env.ssl_new }).1,
          (Cleanup (ContinueSSL env
            { a with ssl_ctx_ := (BeginSSL_context env a).1, ssl_ := env.ssl_new }).2.1).1,
          (BeginSSL_context env a).2 ++ [Event.BIO_new, Event.SSL_new] ++
            (ContinueSSL env
              { a with ssl_ctx_ := (BeginSSL_context env a).1, ssl_ := env.ssl_new }).2.2 ++
            (Cleanup (ContinueSSL env
              { a with ssl_ctx_ := (BeginSSL_context env a).1, ssl_ := env.ssl_new }).2.1).2)
       else
        (0,
          (ContinueSSL env
            { a with ssl_ctx_ := (BeginSSL_context env a).1, ssl_ := env.ssl_new }).2.1,
          (BeginSSL_context env a).2 ++ [Event.BIO_new, Event.SSL_new] ++
            (ContinueSSL env
              { a with ssl_ctx_ := (BeginSSL_context env a).1, ssl_ := env.ssl_new }).2.2)) := by
  obtain ⟨h1, -, -⟩ := BeginSSL_context_spec env a
  unfold engine_objects_available at h
  rw [← h1] at h
  simp only [Bool.and_eq_true] at h
  obtain ⟨⟨hc, hb⟩, hs⟩ := h
  have hc2 : (BeginSSL_context env a).1.isNone = false := by
    cases hx : (BeginSSL_context env a).1 <;> simp_all
  have hs2 : env.ssl_new.isNone = false := by
    cases hx : env.ssl_new <;> simp_all
  unfold BeginSSL
  rw [← BeginSSL_context]
  dsimp only
  simp only [hc2, hb, hs2, Bool.false_eq_true, if_false, Bool.not_true]
  split_ifs with hr
  · rfl
  · simp only [ne_eq, not_not] at hr
    rw [hr]

/-- Setting the ignore flag can only turn a rejection of `VerifyServerName`
into an acceptance. -/
theorem VerifyServerName_mono (ssl : SSL) (host : Option (List Char)) (ig : Bool)
    (h : VerifyServerName ssl host false = true) : VerifyServerName ssl host ig = true := by
  obtain ⟨pc, vr⟩ := ssl
  cases host with
  | none => simp [VerifyServerName] at h
  | some host =>
    cases pc with
    | none => simp [VerifyServerName] at h
    | some cert =>
      rw [VerifyServerName_present] at h ⊢
      rcases h with h | h | h
      · exact Or.inl h
      · exact Or.inr (Or.inl h)
      · exact absurd h (by decide)

/-- The post-connection check passes when the host name check passes on its
own and the chain result is OK. -/
theorem SSLPostConnectionCheck_of_ok (a : Adapter) (ssl : SSL) (host : Option (List Char))
    (hv : VerifyServerName ssl host false = true) (hc : ssl.verify_result = X509_V_OK) :
    SSLPostConnectionCheck a ssl host = true := by
  have h := VerifyServerName_mono ssl host a.ignore_bad_cert_ hv
  simp [SSLPostConnectionCheck, h, hc]

/-- `StartSSL` on an adapter in `SSL_NONE` whose socket is connected: the host
name and the flag are recorded, the handshake is begun, and a failure is
recorded with `Error` without a notification. -/
theorem StartSSL_connected (env : Env) (hostname : List Char) (restartable : Bool)
    (a : Adapter) (h : a.state_ = SSLState.SSL_NONE)
    (hs : env.socket_state = ConnState.CS_CONNECTED) :
    StartSSL env hostname restartable a =
      (if (BeginSSL env { a with ssl_host_name_ := hostname, restartable_ := restartable,
                                 state_ := SSLState.SSL_CONNECTING }).1 ≠ 0 then
        ((BeginSSL env { a with ssl_host_name_ := hostname, restartable_ := restartable,
                                state_ := SSLState.SSL_CONNECTING }).1,
          (Error (BeginSSL env { a with ssl_host_name_ := hostname, restartable_ := restartable,
                                        state_ := SSLState.SSL_CONNECTING }).2.1
            (BeginSSL env { a with ssl_host_name_ := hostname, restartable_ := restartable,
                                   state_ := SSLState.SSL_CONNECTING }).1 false).1,
          Event.socket_GetState ::
            (BeginSSL env { a with ssl_host_name_ := hostname, restartable_ := restartable,
                                   state_ := SSLState.SSL_CONNECTING }).2.2 ++
            (Error (BeginSSL env { a with ssl_host_name_ := hostname, restartable_ := restartable,
                                          state_ := SSLState.SSL_CONNECTING }).2.1
              (BeginSSL env { a with ssl_host_name_ := hostname, restartable_ := restartable,
                                     state_ := SSLState.SSL_CONNECTING }).1 false).2)
       else
        (0,
          (BeginSSL env { a with ssl_host_name_ := hostname, restartable_ := restartable,
                                 state_ := SSLState.SSL_CONNECTING }).2.1,
          Event.socket_GetState ::
            (BeginSSL env { a with ssl_host_name_ := hostname, restartable_ := restartable,
                                   state_ := SSLState.SSL_CONNECTING }).2.2)) := by
  unfold StartSSL
  simp only [h, hs, ne_eq, not_true_eq_false, if_false]

/-- Without the ignore switch and without the override, a chain result other
than OK fails the post-connection check. -/
theorem SSLPostConnectionCheck_untrusted (a : Adapter) (ssl : SSL) (host : Option (List Char))
    (hig : a.ignore_bad_cert_ = false) (hov : a.custom_verification_succeeded_ = false)
    (hvr : ssl.verify_result ≠ X509_V_OK) : SSLPostConnectionCheck a ssl host = false := by
  cases hv : VerifyServerName ssl host false <;>
    simp [SSLPostConnectionCheck, hig, hov, hvr, hv]

/-- A failing handshake step emits no notification; it is either a failed
post-connection check, after which `Cleanup` has run, or a fatal engine error,
after which the adapter is as `SSL_connect` left it. -/
theorem ContinueSSL_failure (env : Env) (a : Adapter) (h : (ContinueSSL env a).1 ≠ 0) :
    (∀ e ∈ (ContinueSSL env a).2.2, e.is_notification = false) ∧
    ((env.connect.error = SSL_ERROR_NONE ∧
        SSLPostConnectionCheck (SSL_connect env a).1 env.connect.session
          (some a.ssl_host_name_) = false ∧
        (ContinueSSL env a).1 = -1 ∧
        (ContinueSSL env a).2.1 = (Cleanup (SSL_connect env a).1).1 ∧
        (ContinueSSL env a).2.2 = (SSL_connect env a).2 ++ (Cleanup (SSL_connect env a).1).2) ∨
     (env.connect.error ≠ SSL_ERROR_NONE ∧ env.connect.error ≠ SSL_ERROR_WANT_READ ∧
        env.connect.error ≠ SSL_ERROR_WANT_WRITE ∧
        (ContinueSSL env a).1 = (if env.connect.code ≠ 0 then env.connect.code else -1) ∧
        (ContinueSSL env a).2.1 = (SSL_connect env a).1 ∧
        (ContinueSSL env a).2.2 = (SSL_connect env a).2)) := by
  obtain ⟨t, ht, hcb⟩ := SSL_connect_trace env a
  obtain ⟨-, -, hc3⟩ := callbacks_only t hcb
  obtain ⟨-, -, hk3⟩ := Cleanup_trace (SSL_connect env a).1
  rcases ContinueSSL_cases env a with ⟨h0, hp, hr⟩ | ⟨-, -, hr⟩ | ⟨-, hr⟩ | ⟨h0, h1, h2, hr⟩
  · refine ⟨?_, Or.inl ⟨h0, hp, ?_, ?_, ?_⟩⟩
    · rw [hr, ht]
      intro e he
      simp only [List.cons_append, List.mem_cons, List.mem_append] at he
      rcases he with he | he | he
      · rw [he]; rfl
      · exact hc3 e he
      · exact hk3 e he
    · rw [hr]
    · rw [hr]
    · rw [hr]
  · rw [hr] at h
    exact absurd rfl h
  · rw [hr] at h
    exact absurd rfl h
  · refine ⟨?_, Or.inr ⟨h0, h1, h2, ?_, ?_, ?_⟩⟩
    · rw [hr, ht]
      intro e he
      simp only [List.mem_cons] at he
      rcases he with he | he
      · rw [he]; rfl
      · exact hc3 e he
    · rw [hr]
    · rw [hr]
    · rw [hr]

/-- A successful handshake step keeps the session, and leaves the state as it
was or `SSL_CONNECTED`. -/
theorem ContinueSSL_success (env : Env) (a : Adapter) (h : (ContinueSSL env a).1 = 0) :
    (ContinueSSL env a).2.1.ssl_ = a.ssl_.map (fun _ => env.connect.session) ∧
    ((ContinueSSL env a).2.1.state_ = SSLState.SSL_CONNECTED ∨
      (ContinueSSL env a).2.1.state_ = a.state_) := by
  have ha := SSL_connect_adapter env a
  rcases ContinueSSL_cases env a with ⟨-, -, hr⟩ | ⟨-, -, hr⟩ | ⟨-, hr⟩ | ⟨-, -, -, hr⟩
  · rw [hr] at h
    simp at h
  · rw [hr]
    refine ⟨?_, Or.inl rfl⟩
    dsimp only
    rw [ha]
  · rw [hr]
    refine ⟨?_, Or.inr ?_⟩
    · dsimp only
      rw [ha]
    · dsimp only
      rw [ha]
  · rw [hr] at h
    dsimp only at h
    split_ifs at h with hc
    exact absurd h hc

/-- A failing `BeginSSL` ends with a `Cleanup` and emits no notification. -/
theorem BeginSSL_failure (env : Env) (a : Adapter) (h : (BeginSSL env a).1 ≠ 0) :
    (∃ x, (BeginSSL env a).2.1 = (Cleanup x).1) ∧
    ∀ e ∈ (BeginSSL env a).2.2, e.is_notification = false := by
  cases hav : engine_objects_available env a
  · obtain ⟨x, t, hr, ht⟩ := BeginSSL_unavailable env a hav
    rw [hr]
    exact ⟨⟨x, rfl⟩, ht⟩
  · have hB := BeginSSL_available env a hav
    obtain ⟨-, hx2, -⟩ := BeginSSL_context_spec env a
    by_cases hc : (ContinueSSL env
        { a with ssl_ctx_ := (BeginSSL_context env a).1, ssl_ := env.ssl_new }).1 ≠ 0
    · rw [if_pos hc] at hB
      obtain ⟨hn, -⟩ := ContinueSSL_failure env _ hc
      obtain ⟨-, -, hk3⟩ := Cleanup_trace (ContinueSSL env
        { a with ssl_ctx_ := (BeginSSL_context env a).1, ssl_ := env.ssl_new }).2.1
      rw [hB]
      refine ⟨⟨_, rfl⟩, ?_⟩
      intro e he
      simp only [List.mem_append, List.mem_cons, List.not_mem_nil, or_false] at he
      rcases he with ((he | he | he) | he) | he
      · exact hx2 e he
      · rw [he]; rfl
      · rw [he]; rfl
      · exact hn e he
      · exact hk3 e he
    · rw [if_neg hc] at hB
      rw [hB] at h
      exact absurd rfl h

/-- A successful `BeginSSL` leaves a session, and the state as it was or
`SSL_CONNECTED`. -/
theorem BeginSSL_success (env : Env) (a : Adapter) (h : (BeginSSL env a).1 = 0) :
    (BeginSSL env a).2.1.ssl_.isSome = true ∧
    ((BeginSSL env a).2.1.state_ = SSLState.SSL_CONNECTED ∨
      (BeginSSL env a).2.1.state_ = a.state_) := by
  cases hav : engine_objects_available env a
  · obtain ⟨x, t, hr, -⟩ := BeginSSL_unavailable env a hav
    rw [hr] at h
    simp at h
  · have hB := BeginSSL_available env a hav
    have hssl : env.ssl_new.isSome = true := by
      unfold engine_objects_available at hav
      simp only [Bool.and_eq_true] at hav
      exact hav.2
    by_cases hc : (ContinueSSL env
        { a with ssl_ctx_ := (BeginSSL_context env a).1, ssl_ := env.ssl_new }).1 ≠ 0
    · rw [if_pos hc] at hB
      rw [hB] at h
      exact absurd h hc
    · rw [if_neg hc] at hB
      simp only [ne_eq, not_not] at hc
      obtain ⟨h1, h2⟩ := ContinueSSL_success env _ hc
      rw [hB]
      refine ⟨?_, h2⟩
      dsimp only at h1 ⊢
      rw [h1]
      cases hx : env.ssl_new with
      | none => rw [hx] at hssl; exact absurd hssl (by decide)
      | some v => rfl

/-- A failing `StartSSL` on a connected socket: the adapter ends in
`SSL_ERROR` with no handshake state, the code is recorded with `SetError` as
the last action, and no notification is emitted. -/
theorem StartSSL_failure (env : Env) (hostname : List Char) (restartable : Bool)
    (a : Adapter) (h : a.state_ = SSLState.SSL_NONE)
    (hs : env.socket_state = ConnState.CS_CONNECTED)
    (hf : (BeginSSL env { a with ssl_host_name_ := hostname, restartable_ := restartable,
                                 state_ := SSLState.SSL_CONNECTING }).1 ≠ 0) :
    (StartSSL env hostname restartable a).1 ≠ 0 ∧
    (StartSSL env hostname restartable a).2.1.state_ = SSLState.SSL_ERROR ∧
    no_handshake_state (StartSSL env hostname restartable a).2.1 ∧
    (∀ e ∈ (StartSSL env hostname restartable a).2.2, e.is_notification = false) ∧
    (StartSSL env hostname restartable a).2.2.getLast? =
      some (Event.SetError (StartSSL env hostname restartable a).1) := by
  have hS := StartSSL_connected env hostname restartable a h hs
  obtain ⟨⟨x, hx⟩, hn⟩ := BeginSSL_failure env _ hf
  rw [if_pos hf] at hS
  rw [hS]
  refine ⟨hf, rfl, ?_, ?_, ?_⟩
  · dsimp only
    rw [hx]
    exact ⟨rfl, rfl, rfl, rfl, rfl⟩
  · intro e he
    simp only [Error, List.mem_cons, List.mem_append, List.not_mem_nil, or_false,
      Bool.false_eq_true, if_false] at he
    rcases he with (he | he) | he
    · rw [he]; rfl
    · exact hn e he
    · rw [he]; rfl
  · simp only [Error, Bool.false_eq_true, if_false]
    exact getLast_cons_append_singleton _ _ _

/-- With no custom predicate, no ignore switch and no override, a handshake
whose first step completes with a chain result other than OK, or is aborted by
the engine, makes `BeginSSL` fail. -/
theorem BeginSSL_untrusted (env : Env) (a : Adapter)
    (hcb : env.custom_verify_callback_ = none) (hig : a.ignore_bad_cert_ = false)
    (hov : a.custom_verification_succeeded_ = false)
    (hfail : (env.connect.error = SSL_ERROR_NONE ∧
        env.connect.session.verify_result ≠ X509_V_OK) ∨
      (env.connect.error ≠ SSL_ERROR_NONE ∧ env.connect.error ≠ SSL_ERROR_WANT_READ ∧
        env.connect.error ≠ SSL_ERROR_WANT_WRITE)) :
    (BeginSSL env a).1 ≠ 0 := by
  cases hav : engine_objects_available env a
  · obtain ⟨x, t, hr, -⟩ := BeginSSL_unavailable env a hav
    rw [hr]
    simp
  · have hB := BeginSSL_available env a hav
    intro h0
    have hc : (ContinueSSL env
        { a with ssl_ctx_ := (BeginSSL_context env a).1, ssl_ := env.ssl_new }).1 = 0 := by
      by_contra hc
      rw [if_pos hc] at hB
      rw [hB] at h0
      exact hc h0
    have hN := SSL_connect_no_custom env
      { a with ssl_ctx_ := (BeginSSL_context env a).1, ssl_ := env.ssl_new } hcb
    rcases ContinueSSL_cases env
        { a with ssl_ctx_ := (BeginSSL_context env a).1, ssl_ := env.ssl_new } with
      ⟨-, -, hr⟩ | ⟨h1, hp, -⟩ | ⟨hw, -⟩ | ⟨-, -, -, hr⟩
    · rw [hr] at hc
      simp at hc
    · rcases hfail with ⟨-, hvr⟩ | ⟨hne, -, -⟩
      · have hq := SSLPostConnectionCheck_untrusted
          (SSL_connect env
            { a with ssl_ctx_ := (BeginSSL_context env a).1, ssl_ := env.ssl_new }).1
          env.connect.session (some a.ssl_host_name_) (by rw [hN]; exact hig)
          (by rw [hN]; exact hov) hvr
        rw [hq] at hp
        exact absurd hp (by decide)
      · exact hne h1
    · rcases hfail with ⟨h1, -⟩ | ⟨-, h2, h3⟩
      · rcases hw with hw | hw <;> rw [h1] at hw <;> exact absurd hw (by decide)
      · rcases hw with hw | hw
        · exact h2 hw
        · exact h3 hw
    · rw [hr] at hc
      dsimp only at hc
      split_ifs at hc with hcode
      exact hcode hc

/-! ## What the state tells about the session, in every reachable adapter -/

theorem session_invariant_new : session_invariant Adapter.new :=
  ⟨fun _ => ⟨rfl, rfl, rfl, rfl, rfl⟩, fun h => by rcases h with h | h <;> cases h⟩

/-- An adapter in `SSL_ERROR` satisfies the invariant, whatever it holds. -/
theorem session_invariant_of_error (a : Adapter) (h : a.state_ = SSLState.SSL_ERROR) :
    session_invariant a := by
  constructor <;> intro hs <;> rcases hs with hs | hs <;> rw [h] at hs <;> cases hs

/-- An adapter without handshake state in `SSL_NONE` or `SSL_WAIT` satisfies
the invariant. -/
theorem session_invariant_of_clean (a : Adapter)
    (h : a.state_ = SSLState.SSL_NONE ∨ a.state_ = SSLState.SSL_WAIT)
    (hc : no_handshake_state a) : session_invariant a := by
  refine ⟨fun _ => hc, fun hs => ?_⟩
  rcases h with h | h <;> rcases hs with hs | hs <;> rw [h] at hs <;> cases hs

/-- An adapter with a session in `SSL_CONNECTING` or `SSL_CONNECTED` satisfies
the invariant. -/
theorem session_invariant_of_session (a : Adapter)
    (h : a.state_ = SSLState.SSL_CONNECTING ∨ a.state_ = SSLState.SSL_CONNECTED)
    (hc : a.ssl_.isSome = true) : session_invariant a := by
  refine ⟨fun hs => ?_, fun _ => hc⟩
  rcases h with h | h <;> rcases hs with hs | hs <;> rw [h] at hs <;> cases hs

theorem session_invariant_BeginSSL (env : Env) (a : Adapter)
    (h : a.state_ = SSLState.SSL_CONNECTING) :
    (BeginSSL env a).1 ≠ 0 ∨ session_invariant (BeginSSL env a).2.1 := by
  by_cases h0 : (BeginSSL env a).1 = 0
  · right
    obtain ⟨h1, h2⟩ := BeginSSL_success env a h0
    rw [h] at h2
    exact session_invariant_of_session _ (h2.symm) h1
  · exact Or.inl h0

theorem session_invariant_StartSSL (env : Env) (hostname : List Char) (restartable : Bool)
    (a : Adapter) (hi : session_invariant a) :
    session_invariant (StartSSL env hostname restartable a).2.1 := by
  by_cases h : a.state_ = SSLState.SSL_NONE
  · have hc := hi.1 (Or.inl h)
    by_cases hs : env.socket_state = ConnState.CS_CONNECTED
    · have hS := StartSSL_connected env hostname restartable a h hs
      by_cases hf : (BeginSSL env { a with ssl_host_name_ := hostname, restartable_ := restartable, state_ := SSLState.SSL_CONNECTING }).1 ≠ 0
      · rw [if_pos hf] at hS
        rw [hS]
        exact session_invariant_of_error _ rfl
      · rw [if_neg hf] at hS
        rw [hS]
        rcases session_invariant_BeginSSL env { a with ssl_host_name_ := hostname, restartable_ := restartable, state_ := SSLState.SSL_CONNECTING } rfl with hb | hb
        · exact absurd hb hf
        · exact hb
    · have hS : StartSSL env hostname restartable a =
          (0, { a with ssl_host_name_ := hostname, restartable_ := restartable,
                       state_ := SSLState.SSL_WAIT }, [Event.socket_GetState]) := by
        simp [StartSSL, h, hs]
      rw [hS]
      exact session_invariant_of_clean _ (Or.inr rfl) hc
  · rw [StartSSL_refused env hostname restartable a h]
    exact hi

theorem session_invariant_Send (env : Env) (pv cb : Nat) (a : Adapter)
    (hi : session_invariant a) : session_invariant (Send env pv cb a).2.1 := by
  cases h : a.state_
  case SSL_CONNECTED =>
    have hs := hi.2 (Or.inr h)
    unfold Send
    simp only [h]
    split_ifs
    all_goals first
      | exact hi
      | exact session_invariant_of_session _ (Or.inr rfl) hs
      | exact session_invariant_of_error _ rfl
  all_goals
    have hr : (Send env pv cb a).2.1 = a := by simp [Send, h]
    rw [hr]
    exact hi

theorem session_invariant_Recv (env : Env) (pv cb : Nat) (a : Adapter)
    (hi : session_invariant a) : session_invariant (Recv env pv cb a).2.1 := by
  cases h : a.state_
  case SSL_CONNECTED =>
    have hs := hi.2 (Or.inr h)
    unfold Recv
    simp only [h]
    split_ifs
    all_goals first
      | exact hi
      | exact session_invariant_of_session _ (Or.inr rfl) hs
      | exact session_invariant_of_error _ rfl
  all_goals
    have hr : (Recv env pv cb a).2.1 = a := by simp [Recv, h]
    rw [hr]
    exact hi

theorem session_invariant_Close (env : Env) (a : Adapter) :
    session_invariant (Close env a).2.1 := by
  refine session_invariant_of_clean _ ?_ ⟨rfl, rfl, rfl, rfl, rfl⟩
  cases hr : a.restartable_ <;> simp [Close, Cleanup, hr]

theorem session_invariant_OnConnectEvent (env : Env) (a : Adapter)
    (hi : session_invariant a) : session_invariant (OnConnectEvent env a).1 := by
  by_cases h : a.state_ = SSLState.SSL_WAIT
  · by_cases hf : (BeginSSL env { a with state_ := SSLState.SSL_CONNECTING }).1 ≠ 0
    · obtain ⟨⟨x, hx⟩, -⟩ := BeginSSL_failure env _ hf
      have hr : (OnConnectEvent env a).1 = (Cleanup x).1 := by
        simp [OnConnectEvent, h, hf, hx]
      rw [hr]
      exact session_invariant_of_clean _ (Or.inl rfl) ⟨rfl, rfl, rfl, rfl, rfl⟩
    · have hr : (OnConnectEvent env a).1 =
          (BeginSSL env { a with state_ := SSLState.SSL_CONNECTING }).2.1 := by
        simp only [ne_eq, not_not] at hf
        simp [OnConnectEvent, h, hf]
      rw [hr]
      rcases session_invariant_BeginSSL env { a with state_ := SSLState.SSL_CONNECTING }
        rfl with hb | hb
      · exact absurd hb hf
      · exact hb
  · have hr : (OnConnectEvent env a).1 = a := by simp [OnConnectEvent, h]
    rw [hr]
    exact hi

/-- A handshake step on an adapter in `SSL_CONNECTING`, as the read and write
readiness events run it. -/
theorem session_invariant_step_event (env : Env) (a : Adapter)
    (h : a.state_ = SSLState.SSL_CONNECTING) (hi : session_invariant a) :
    session_invariant
      (if (ContinueSSL env a).1 ≠ 0 then
        ((Error (ContinueSSL env a).2.1 (ContinueSSL env a).1 true).1,
          (ContinueSSL env a).2.2 ++ (Error (ContinueSSL env a).2.1 (ContinueSSL env a).1 true).2)
       else ((ContinueSSL env a).2.1, (ContinueSSL env a).2.2)).1 := by
  have hs := hi.2 (Or.inl h)
  split_ifs with hf
  · exact session_invariant_of_error _ rfl
  · simp only [ne_eq, not_not] at hf
    obtain ⟨h1, h2⟩ := ContinueSSL_success env a hf
    rw [h] at h2
    refine session_invariant_of_session _ h2.symm ?_
    dsimp only
    rw [h1]
    cases hx : a.ssl_ with
    | none => rw [hx] at hs; exact absurd hs (by decide)
    | some v => rfl

theorem session_invariant_OnReadEvent (env : Env) (a : Adapter)
    (hi : session_invariant a) : session_invariant (OnReadEvent env a).1 := by
  cases h : a.state_
  case SSL_CONNECTING =>
    have hr : OnReadEvent env a =
        (if (ContinueSSL env a).1 ≠ 0 then
          ((Error (ContinueSSL env a).2.1 (ContinueSSL env a).1 true).1,
            (ContinueSSL env a).2.2 ++
              (Error (ContinueSSL env a).2.1 (ContinueSSL env a).1 true).2)
         else ((ContinueSSL env a).2.1, (ContinueSSL env a).2.2)) := by
      simp [OnReadEvent, h]
    rw [hr]
    exact session_invariant_step_event env a h hi
  all_goals
    have hr : (OnReadEvent env a).1 = a := by simp [OnReadEvent, h]
    rw [hr]
    exact hi

theorem session_invariant_OnWriteEvent (env : Env) (a : Adapter)
    (hi : session_invariant a) : session_invariant (OnWriteEvent env a).1 := by
  cases h : a.state_
  case SSL_CONNECTING =>
    have hr : OnWriteEvent env a =
        (if (ContinueSSL env a).1 ≠ 0 then
          ((Error (ContinueSSL env a).2.1 (ContinueSSL env a).1 true).1,
            (ContinueSSL env a).2.2 ++
              (Error (ContinueSSL env a).2.1 (ContinueSSL env a).1 true).2)
         else ((ContinueSSL env a).2.1, (ContinueSSL env a).2.2)) := by
      simp [OnWriteEvent, h]
    rw [hr]
    exact session_invariant_step_event env a h hi
  all_goals
    have hr : (OnWriteEvent env a).1 = a := by simp [OnWriteEvent, h]
    rw [hr]
    exact hi

/-- Every operation keeps the invariant. -/
theorem session_invariant_step (env : Env) (op : Op) (a : Adapter)
    (hi : session_invariant a) : session_invariant (run_op env op a).1 := by
  cases op with
  | StartSSL hostname restartable => exact session_invariant_StartSSL env hostname restartable a hi
  | Send pv cb => exact session_invariant_Send env pv cb a hi
  | Recv pv cb => exact session_invariant_Recv env pv cb a hi
  | Close => exact session_invariant_Close env a
  | OnConnectEvent => exact session_invariant_OnConnectEvent env a hi
  | OnReadEvent => exact session_invariant_OnReadEvent env a hi
  | OnWriteEvent => exact session_invariant_OnWriteEvent env a hi

/-- Every reachable adapter satisfies the invariant. -/
theorem session_invariant_reachable (a : Adapter) (h : Reachable a) : session_invariant a := by
  induction h with
  | new => exact session_invariant_new
  | step env op _ ih => exact session_invariant_step env op _ ih

/-- The sample adapters are reachable. -/
theorem sample_adapters_reachable :
    Reachable adapter_handshaking ∧ Reachable adapter_established ∧ Reachable adapter_waiting :=
  ⟨Reachable.step (env_handshake step_want_read)
      (Op.StartSSL "shop.example.com".toList false) Reachable.new,
   Reachable.step (env_handshake (step_complete X509_V_OK))
      (Op.StartSSL "shop.example.com".toList false) Reachable.new,
   Reachable.step sample_env (Op.StartSSL "shop.example.com".toList true) Reachable.new⟩

/-- `Close` on an adapter without handshake state frees nothing and changes at
most the state. -/
theorem Close_of_clean (env : Env) (a : Adapter) (hc : no_handshake_state a) :
    Close env a =
      (env.socket_close,
        { a with state_ := if a.restartable_ then SSLState.SSL_WAIT else SSLState.SSL_NONE },
        [Event.socket_Close]) := by
  obtain ⟨h1, h2, h3, h4, h5⟩ := hc
  cases a
  simp only at h1 h2 h3 h4 h5
  subst h1 h2 h3 h4 h5
  rfl

/-! ## The handshake state machine -/

/-- C6: for every adapter whose state is not `SSL_NONE`, `StartSSL` returns
`-1` and leaves the whole adapter as it was (state, peer host name, restartable
flag, engine session, context, both blocked flags), and it makes no call to
the wrapped socket or to the engine: its trace is empty. -/
theorem StartSSL_already_started (env : Env) (hostname : List Char) (restartable : Bool)
    (a : Adapter) (h : a.state_ ≠ SSLState.SSL_NONE) :
    StartSSL env hostname restartable a = (-1, a, []) := by
  unfold StartSSL
  rw [if_pos h]

/-- C6, at an adapter that is in the middle of a handshake. -/
theorem StartSSL_already_started_witness :
    StartSSL sample_env "example.com".toList true
        { Adapter.new with state_ := SSLState.SSL_CONNECTING, ssl_ := some ⟨none, 0⟩ } =
      (-1, { Adapter.new with state_ := SSLState.SSL_CONNECTING, ssl_ := some ⟨none, 0⟩ }, []) :=
  StartSSL_already_started sample_env "example.com".toList true
    { Adapter.new with state_ := SSLState.SSL_CONNECTING, ssl_ := some ⟨none, 0⟩ } (by decide)

/-- C7, the claim as stated fails: in `SSL_NONE` a `Send` of three bytes is
handed to the wrapped socket and returns its positive byte count, and in
`SSL_ERROR` `Send` and `Recv` return `SOCKET_ERROR` without setting the error
to `EWOULDBLOCK`. -/
theorem Send_before_established_not_would_block :
    Send sample_env 0 3 Adapter.new = (5, Adapter.new, [Event.socket_Send 0 3]) ∧
    Send sample_env 0 3 { Adapter.new with state_ := SSLState.SSL_ERROR } =
      (SOCKET_ERROR, { Adapter.new with state_ := SSLState.SSL_ERROR }, []) ∧
    Recv sample_env 0 3 { Adapter.new with state_ := SSLState.SSL_ERROR } =
      (SOCKET_ERROR, { Adapter.new with state_ := SSLState.SSL_ERROR }, []) := by
  decide

/-- C7 (amended): in `SSL_WAIT` and `SSL_CONNECTING`, `Send` and `Recv` return
`SOCKET_ERROR` with the error set to `EWOULDBLOCK`, for every buffer, and so
never a positive byte count; in `SSL_ERROR` they return `SOCKET_ERROR` and
leave the error code alone; in `SSL_NONE` they hand the call to the wrapped
socket and return its result.  None of them changes the adapter. -/
theorem Send_Recv_before_established (env : Env) (pv cb : Nat) (a : Adapter) :
    (a.state_ = SSLState.SSL_WAIT ∨ a.state_ = SSLState.SSL_CONNECTING →
      Send env pv cb a = (SOCKET_ERROR, a, [Event.SetError EWOULDBLOCK]) ∧
      Recv env pv cb a = (SOCKET_ERROR, a, [Event.SetError EWOULDBLOCK])) ∧
    (a.state_ = SSLState.SSL_ERROR →
      Send env pv cb a = (SOCKET_ERROR, a, []) ∧ Recv env pv cb a = (SOCKET_ERROR, a, [])) ∧
    (a.state_ = SSLState.SSL_NONE →
      Send env pv cb a = (env.socket_send, a, [Event.socket_Send pv cb]) ∧
      Recv env pv cb a = (env.socket_recv, a, [Event.socket_Recv pv cb])) := by
  refine ⟨?_, ?_, ?_⟩
  · rintro (h | h) <;> simp [Send, Recv, h]
  · intro h
    simp [Send, Recv, h]
  · intro h
    simp [Send, Recv, h]

/-- C7, at an adapter waiting for the connect event and a buffer of three
bytes. -/
theorem Send_Recv_before_established_witness :
    Send sample_env 0 3 { Adapter.new with state_ := SSLState.SSL_WAIT } =
      (SOCKET_ERROR, { Adapter.new with state_ := SSLState.SSL_WAIT },
        [Event.SetError EWOULDBLOCK]) ∧
    Recv sample_env 0 3 { Adapter.new with state_ := SSLState.SSL_WAIT } =
      (SOCKET_ERROR, { Adapter.new with state_ := SSLState.SSL_WAIT },
        [Event.SetError EWOULDBLOCK]) :=
  (Send_Recv_before_established sample_env 0 3
    { Adapter.new with state_ := SSLState.SSL_WAIT }).1 (Or.inl rfl)

/-- C8, the claim as stated fails: a zero-length `Send` returns `SOCKET_ERROR`
in `SSL_WAIT`, and in `SSL_NONE` it returns whatever the wrapped socket
returns (here 5), not 0. -/
theorem zero_length_Send_outside_established :
    Send sample_env 0 0 { Adapter.new with state_ := SSLState.SSL_WAIT } =
      (-1, { Adapter.new with state_ := SSLState.SSL_WAIT }, [Event.SetError EWOULDBLOCK]) ∧
    Send sample_env 0 0 Adapter.new = (5, Adapter.new, [Event.socket_Send 0 0]) := by
  decide

/-- C8 (amended): for every adapter in `SSL_CONNECTED`, `Send` with a
zero-length buffer returns 0 with an empty trace; in every state a zero-length
`Send` makes no call into the TLS engine and changes no adapter field; outside
`SSL_CONNECTED` its result is the one of the state dispatch, the wrapped
socket's result in `SSL_NONE` and `SOCKET_ERROR` in the other states. -/
theorem Send_zero_length (env : Env) (pv : Nat) (a : Adapter) :
    (a.state_ = SSLState.SSL_CONNECTED → Send env pv 0 a = (0, a, [])) ∧
    (Send env pv 0 a).2.1 = a ∧
    (∀ e ∈ (Send env pv 0 a).2.2, e.is_engine_call = false) ∧
    (a.state_ ≠ SSLState.SSL_CONNECTED →
      (Send env pv 0 a).1 =
        if a.state_ = SSLState.SSL_NONE then env.socket_send else SOCKET_ERROR) := by
  refine ⟨?_, ?_, ?_, ?_⟩
  · intro h
    simp [Send, h]
  · cases h : a.state_ <;> simp [Send, h]
  · cases h : a.state_ <;> simp [Send, h, Event.is_engine_call]
  · cases h : a.state_ <;> simp [Send, h]

/-- C8, at an established adapter. -/
theorem Send_zero_length_witness :
    Send sample_env 0 0
        { Adapter.new with state_ := SSLState.SSL_CONNECTED, ssl_ := some ⟨none, 0⟩ } =
      (0, { Adapter.new with state_ := SSLState.SSL_CONNECTED, ssl_ := some ⟨none, 0⟩ }, []) :=
  (Send_zero_length sample_env 0
    { Adapter.new with state_ := SSLState.SSL_CONNECTED, ssl_ := some ⟨none, 0⟩ }).1 rfl

/-- C9, the claim as stated fails, in both halves: an adapter started with
restartable = true is left in `SSL_WAIT` by `Close`, and a further `StartSSL`
returns the already-started error `-1`; an adapter started with restartable =
false is left in `SSL_NONE` by `Close`, and a further `StartSSL` is accepted
and returns 0. -/
theorem restartable_Close_then_StartSSL_refused :
    (Close sample_env (StartSSL sample_env "h".toList true Adapter.new).2.1).2.1.state_ =
      SSLState.SSL_WAIT ∧
    (StartSSL sample_env "h".toList true
      (Close sample_env (StartSSL sample_env "h".toList true Adapter.new).2.1).2.1).1 = -1 ∧
    (Close sample_env (StartSSL sample_env "h".toList false Adapter.new).2.1).2.1.state_ =
      SSLState.SSL_NONE ∧
    (StartSSL sample_env "h".toList false
      (Close sample_env (StartSSL sample_env "h".toList false Adapter.new).2.1).2.1).1 = 0 := by
  decide

/-- C9 (amended): for every adapter whose restartable flag is set, `Close`
leaves it in `SSL_WAIT`; a further `StartSSL` is refused there (it returns `-1`
and changes nothing, with no call made), and it is the next connect event that
begins the handshake again, by setting up a new context.  For every adapter
whose restartable flag is clear, `Close` leaves it in `SSL_NONE`, and a further
`StartSSL` is accepted on the same adapter: it records the host name and the
flag and queries the wrapped socket, and when the socket is not connected it
returns 0 and leaves the adapter in `SSL_WAIT`. -/
theorem Close_then_StartSSL (env env2 : Env) (hostname : List Char) (restartable : Bool)
    (a : Adapter) :
    (a.restartable_ = true →
      (Close env a).2.1.state_ = SSLState.SSL_WAIT ∧
      StartSSL env2 hostname restartable (Close env a).2.1 = (-1, (Close env a).2.1, []) ∧
      (OnConnectEvent env2 (Close env a).2.1).2.head? = some Event.SSL_CTX_new) ∧
    (a.restartable_ = false →
      (Close env a).2.1.state_ = SSLState.SSL_NONE ∧
      (StartSSL env2 hostname restartable (Close env a).2.1).2.1.ssl_host_name_ = hostname ∧
      (StartSSL env2 hostname restartable (Close env a).2.1).2.1.restartable_ = restartable ∧
      (StartSSL env2 hostname restartable (Close env a).2.1).2.2.head? =
        some Event.socket_GetState ∧
      (env2.socket_state ≠ ConnState.CS_CONNECTED →
        (StartSSL env2 hostname restartable (Close env a).2.1).1 = 0 ∧
        (StartSSL env2 hostname restartable (Close env a).2.1).2.1.state_ =
          SSLState.SSL_WAIT)) := by
  constructor
  · intro h
    have hs : (Close env a).2.1.state_ = SSLState.SSL_WAIT := by simp [Close, Cleanup, h]
    have hc : (Close env a).2.1.ssl_ctx_ = none := rfl
    refine ⟨hs, ?_, ?_⟩
    · exact StartSSL_refused env2 hostname restartable _ (by rw [hs]; decide)
    · exact OnConnectEvent_begins env2 _ hs hc
  · intro h
    have hs : (Close env a).2.1.state_ = SSLState.SSL_NONE := by simp [Close, Cleanup, h]
    have hst := StartSSL_settings env2 hostname restartable _ hs
    refine ⟨hs, hst.1, hst.2.1, hst.2.2, ?_⟩
    intro hc
    simp [StartSSL, hs, hc]

/-- C9, at a fresh adapter that was started on an unconnected socket, once
with the restartable flag and once without. -/
theorem Close_then_StartSSL_witness :
    StartSSL sample_env "h".toList true
        (Close sample_env (StartSSL sample_env "h".toList true Adapter.new).2.1).2.1 =
      (-1, (Close sample_env (StartSSL sample_env "h".toList true Adapter.new).2.1).2.1, []) ∧
    (StartSSL sample_env "h".toList false
        (Close sample_env (StartSSL sample_env "h".toList false Adapter.new).2.1).2.1).1 = 0 :=
  ⟨((Close_then_StartSSL sample_env sample_env "h".toList true
      (StartSSL sample_env "h".toList true Adapter.new).2.1).1 rfl).2.1,
   ((Close_then_StartSSL sample_env sample_env "h".toList false
      (StartSSL sample_env "h".toList false Adapter.new).2.1).2 rfl).2.2.2.2 (by decide) |>.1⟩

/-- C10: for every adapter, `Close` leaves the engine session and the
verification context absent, both blocked flags and the override flag false,
the state `SSL_WAIT` if the restartable flag is set and `SSL_NONE` otherwise,
the peer host name, the restartable flag and the ignore switch as they were;
it frees the session and the context when present, forwards exactly one close
to the wrapped socket, as its last action, and returns that close's result. -/
theorem Close_result (env : Env) (a : Adapter) :
    (Close env a).2.1.ssl_ = none ∧
    (Close env a).2.1.ssl_ctx_ = none ∧
    (Close env a).2.1.ssl_read_needs_write_ = false ∧
    (Close env a).2.1.ssl_write_needs_read_ = false ∧
    (Close env a).2.1.custom_verification_succeeded_ = false ∧
    (Close env a).2.1.state_ =
      (if a.restartable_ then SSLState.SSL_WAIT else SSLState.SSL_NONE) ∧
    (Close env a).2.1.ssl_host_name_ = a.ssl_host_name_ ∧
    (Close env a).2.1.restartable_ = a.restartable_ ∧
    (Close env a).2.1.ignore_bad_cert_ = a.ignore_bad_cert_ ∧
    (Close env a).1 = env.socket_close ∧
    (Close env a).2.2 =
      (if a.ssl_.isSome then [Event.SSL_free] else []) ++
      (if a.ssl_ctx_.isSome then [Event.SSL_CTX_free] else []) ++ [Event.socket_Close] ∧
    (Close env a).2.2.count Event.socket_Close = 1 := by
  refine ⟨rfl, rfl, rfl, rfl, rfl, rfl, rfl, rfl, rfl, rfl, rfl, ?_⟩
  show List.count Event.socket_Close
    ((if a.ssl_.isSome then [Event.SSL_free] else []) ++
      (if a.ssl_ctx_.isSome then [Event.SSL_CTX_free] else []) ++ [Event.socket_Close]) = 1
  cases a.ssl_ <;> cases a.ssl_ctx_ <;> rfl

/-- C12: `GetState` asks the wrapped socket once and returns "connecting" when
the socket reports "connected" and the adapter is in `SSL_WAIT` or
`SSL_CONNECTING`, and the socket's state unchanged in every other case; so it
never returns "connected" in `SSL_WAIT` or `SSL_CONNECTING`. -/
theorem GetState_result (env : Env) (a : Adapter) :
    (GetState env a).2 = [Event.socket_GetState] ∧
    (env.socket_state = ConnState.CS_CONNECTED →
      a.state_ = SSLState.SSL_WAIT ∨ a.state_ = SSLState.SSL_CONNECTING →
      (GetState env a).1 = ConnState.CS_CONNECTING) ∧
    (¬ (env.socket_state = ConnState.CS_CONNECTED ∧
        (a.state_ = SSLState.SSL_WAIT ∨ a.state_ = SSLState.SSL_CONNECTING)) →
      (GetState env a).1 = env.socket_state) ∧
    (a.state_ = SSLState.SSL_WAIT ∨ a.state_ = SSLState.SSL_CONNECTING →
      (GetState env a).1 ≠ ConnState.CS_CONNECTED) := by
  unfold GetState
  refine ⟨?_, ?_, ?_, ?_⟩
  · dsimp only
    split_ifs <;> rfl
  · intro h1 h2
    simp [h1, h2]
  · intro h
    simp [h]
  · intro h
    dsimp only
    split_ifs with hc
    · simp
    · intro h2
      exact hc ⟨h2, h⟩

/-- C12, at an adapter waiting for the connect event and at a fresh adapter,
both on a socket that reports "connected". -/
theorem GetState_result_witness :
    (GetState (env_handshake step_want_read) adapter_waiting).1 = ConnState.CS_CONNECTING ∧
    (GetState (env_handshake step_want_read) Adapter.new).1 = ConnState.CS_CONNECTED ∧
    (GetState (env_handshake step_want_read) adapter_waiting).1 ≠ ConnState.CS_CONNECTED :=
  ⟨(GetState_result (env_handshake step_want_read) adapter_waiting).2.1 rfl (Or.inl rfl),
   (GetState_result (env_handshake step_want_read) Adapter.new).2.2.1 (by decide),
   (GetState_result (env_handshake step_want_read) adapter_waiting).2.2.2 (Or.inl rfl)⟩

/-- C17: for every adapter in `SSL_ERROR`, `Send` and `Recv` return
`SOCKET_ERROR` for every buffer with an empty trace (no call to the engine or
to the wrapped socket), and the read and write readiness events emit nothing;
all four leave the whole adapter, its state included, as it was. -/
theorem failed_stays_failed (env : Env) (pv cb : Nat) (a : Adapter)
    (h : a.state_ = SSLState.SSL_ERROR) :
    Send env pv cb a = (SOCKET_ERROR, a, []) ∧
    Recv env pv cb a = (SOCKET_ERROR, a, []) ∧
    OnReadEvent env a = (a, []) ∧
    OnWriteEvent env a = (a, []) := by
  refine ⟨?_, ?_, ?_, ?_⟩ <;> simp [Send, Recv, OnReadEvent, OnWriteEvent, h]

/-- C17, at the adapter left by a fatal engine error during the handshake. -/
theorem failed_stays_failed_witness :
    Send sample_env 0 3 (OnReadEvent (env_handshake step_fatal) adapter_handshaking).1 =
      (SOCKET_ERROR, (OnReadEvent (env_handshake step_fatal) adapter_handshaking).1, []) ∧
    Recv sample_env 0 3 (OnReadEvent (env_handshake step_fatal) adapter_handshaking).1 =
      (SOCKET_ERROR, (OnReadEvent (env_handshake step_fatal) adapter_handshaking).1, []) ∧
    OnReadEvent sample_env (OnReadEvent (env_handshake step_fatal) adapter_handshaking).1 =
      ((OnReadEvent (env_handshake step_fatal) adapter_handshaking).1, []) ∧
    OnWriteEvent sample_env (OnReadEvent (env_handshake step_fatal) adapter_handshaking).1 =
      ((OnReadEvent (env_handshake step_fatal) adapter_handshaking).1, []) :=
  failed_stays_failed sample_env 0 3
    (OnReadEvent (env_handshake step_fatal) adapter_handshaking).1 (by decide)

/-- C18: for every adapter in `SSL_CONNECTED`, a read readiness event emits
the notifications writable, readable when `ssl_write_needs_read_` is set and
readable alone otherwise, and a write readiness event emits readable, writable
when `ssl_read_needs_write_` is set and writable alone otherwise; neither
changes any field of the adapter nor makes any other call. -/
theorem established_readiness_events (env : Env) (a : Adapter)
    (h : a.state_ = SSLState.SSL_CONNECTED) :
    OnReadEvent env a =
      (a, if a.ssl_write_needs_read_ then [Event.SignalWriteEvent, Event.SignalReadEvent]
          else [Event.SignalReadEvent]) ∧
    OnWriteEvent env a =
      (a, if a.ssl_read_needs_write_ then [Event.SignalReadEvent, Event.SignalWriteEvent]
          else [Event.SignalWriteEvent]) := by
  constructor
  · cases hw : a.ssl_write_needs_read_ <;> simp [OnReadEvent, h, hw]
  · cases hr : a.ssl_read_needs_write_ <;> simp [OnWriteEvent, h, hr]

/-- C18, at an established adapter whose last `Send` stalled on a read. -/
theorem established_readiness_events_witness :
    OnReadEvent sample_env { adapter_established with ssl_write_needs_read_ := true } =
      ({ adapter_established with ssl_write_needs_read_ := true },
        [Event.SignalWriteEvent, Event.SignalReadEvent]) ∧
    OnWriteEvent sample_env { adapter_established with ssl_write_needs_read_ := true } =
      ({ adapter_established with ssl_write_needs_read_ := true }, [Event.SignalWriteEvent]) :=
  established_readiness_events sample_env
    { adapter_established with ssl_write_needs_read_ := true } (by decide)

/-- C20: for every adapter in `SSL_CONNECTED` and every non-empty buffer,
`Send` makes exactly one engine call, `SSL_write` on that buffer, and returns
the engine's byte count on success; on want-read, want-write and zero-return
it returns `SOCKET_ERROR` with the error set to `EWOULDBLOCK` and the state
stays `SSL_CONNECTED`; on any other engine error it returns `SOCKET_ERROR` and
the state becomes `SSL_ERROR`.  Afterwards `ssl_write_needs_read_` is true
exactly when the engine reported want-read, and every other field but the
state is as before.  `Recv` is the same with `SSL_read` and with
`ssl_read_needs_write_` true exactly on want-write. -/
theorem established_Send_Recv (env : Env) (pv cb : Nat) (a : Adapter)
    (h : a.state_ = SSLState.SSL_CONNECTED) (hcb : cb ≠ 0) :
    ((Send env pv cb a).2.2.filter Event.is_engine_call = [Event.SSL_write pv cb] ∧
     (env.write_error = SSL_ERROR_NONE →
        (Send env pv cb a).1 = env.write_code ∧ (Send env pv cb a).2.2 = [Event.SSL_write pv cb] ∧
        (Send env pv cb a).2.1.state_ = SSLState.SSL_CONNECTED) ∧
     (env.write_error = SSL_ERROR_WANT_READ ∨ env.write_error = SSL_ERROR_WANT_WRITE ∨
        env.write_error = SSL_ERROR_ZERO_RETURN →
        (Send env pv cb a).1 = SOCKET_ERROR ∧
        (Send env pv cb a).2.2 = [Event.SSL_write pv cb, Event.SetError EWOULDBLOCK] ∧
        (Send env pv cb a).2.1.state_ = SSLState.SSL_CONNECTED) ∧
     (env.write_error ≠ SSL_ERROR_NONE ∧ env.write_error ≠ SSL_ERROR_WANT_READ ∧
        env.write_error ≠ SSL_ERROR_WANT_WRITE ∧ env.write_error ≠ SSL_ERROR_ZERO_RETURN →
        (Send env pv cb a).1 = SOCKET_ERROR ∧
        (Send env pv cb a).2.1.state_ = SSLState.SSL_ERROR) ∧
     ((Send env pv cb a).2.1.ssl_write_needs_read_ = true ↔
        env.write_error = SSL_ERROR_WANT_READ) ∧
     (Send env pv cb a).2.1 =
        { a with state_ := (Send env pv cb a).2.1.state_,
                 ssl_write_needs_read_ := (Send env pv cb a).2.1.ssl_write_needs_read_ }) ∧
    ((Recv env pv cb a).2.2.filter Event.is_engine_call = [Event.SSL_read pv cb] ∧
     (env.read_error = SSL_ERROR_NONE →
        (Recv env pv cb a).1 = env.read_code ∧ (Recv env pv cb a).2.2 = [Event.SSL_read pv cb] ∧
        (Recv env pv cb a).2.1.state_ = SSLState.SSL_CONNECTED) ∧
     (env.read_error = SSL_ERROR_WANT_READ ∨ env.read_error = SSL_ERROR_WANT_WRITE ∨
        env.read_error = SSL_ERROR_ZERO_RETURN →
        (Recv env pv cb a).1 = SOCKET_ERROR ∧
        (Recv env pv cb a).2.2 = [Event.SSL_read pv cb, Event.SetError EWOULDBLOCK] ∧
        (Recv env pv cb a).2.1.state_ = SSLState.SSL_CONNECTED) ∧
     (env.read_error ≠ SSL_ERROR_NONE ∧ env.read_error ≠ SSL_ERROR_WANT_READ ∧
        env.read_error ≠ SSL_ERROR_WANT_WRITE ∧ env.read_error ≠ SSL_ERROR_ZERO_RETURN →
        (Recv env pv cb a).1 = SOCKET_ERROR ∧
        (Recv env pv cb a).2.1.state_ = SSLState.SSL_ERROR) ∧
     ((Recv env pv cb a).2.1.ssl_read_needs_write_ = true ↔
        env.read_error = SSL_ERROR_WANT_WRITE) ∧
     (Recv env pv cb a).2.1 =
        { a with state_ := (Recv env pv cb a).2.1.state_,
                 ssl_read_needs_write_ := (Recv env pv cb a).2.1.ssl_read_needs_write_ }) := by
  constructor
  · by_cases h0 : env.write_error = SSL_ERROR_NONE
    · simp [Send, h, hcb, h0, Event.is_engine_call, SSL_ERROR_NONE, SSL_ERROR_WANT_READ,
        SSL_ERROR_WANT_WRITE, SSL_ERROR_ZERO_RETURN]
    · by_cases h1 : env.write_error = SSL_ERROR_WANT_READ
      · simp [Send, h, hcb, h1, Event.is_engine_call, SSL_ERROR_NONE, SSL_ERROR_WANT_READ,
          SSL_ERROR_WANT_WRITE, SSL_ERROR_ZERO_RETURN]
      · by_cases h2 : env.write_error = SSL_ERROR_WANT_WRITE
        · simp [Send, h, hcb, h2, Event.is_engine_call, SSL_ERROR_NONE, SSL_ERROR_WANT_READ,
            SSL_ERROR_WANT_WRITE, SSL_ERROR_ZERO_RETURN]
        · by_cases h3 : env.write_error = SSL_ERROR_ZERO_RETURN
          · simp [Send, h, hcb, h3, Event.is_engine_call, SSL_ERROR_NONE, SSL_ERROR_WANT_READ,
              SSL_ERROR_WANT_WRITE, SSL_ERROR_ZERO_RETURN]
          · simp [Send, h, hcb, h0, h1, h2, h3, Error, Event.is_engine_call]
  · by_cases h0 : env.read_error = SSL_ERROR_NONE
    · simp [Recv, h, hcb, h0, Event.is_engine_call, SSL_ERROR_NONE, SSL_ERROR_WANT_READ,
        SSL_ERROR_WANT_WRITE, SSL_ERROR_ZERO_RETURN]
    · by_cases h1 : env.read_error = SSL_ERROR_WANT_READ
      · simp [Recv, h, hcb, h1, Event.is_engine_call, SSL_ERROR_NONE, SSL_ERROR_WANT_READ,
          SSL_ERROR_WANT_WRITE, SSL_ERROR_ZERO_RETURN]
      · by_cases h2 : env.read_error = SSL_ERROR_WANT_WRITE
        · simp [Recv, h, hcb, h2, Event.is_engine_call, SSL_ERROR_NONE, SSL_ERROR_WANT_READ,
            SSL_ERROR_WANT_WRITE, SSL_ERROR_ZERO_RETURN]
        · by_cases h3 : env.read_error = SSL_ERROR_ZERO_RETURN
          · simp [Recv, h, hcb, h3, Event.is_engine_call, SSL_ERROR_NONE, SSL_ERROR_WANT_READ,
              SSL_ERROR_WANT_WRITE, SSL_ERROR_ZERO_RETURN]
          · simp [Recv, h, hcb, h0, h1, h2, h3, Error, Event.is_engine_call]

/-- C20, at an established adapter and a buffer of three bytes for which the
engine reports want-read. -/
theorem established_Send_Recv_witness :
    (Send { sample_env with write_code := -1, write_error := SSL_ERROR_WANT_READ } 0 3
        adapter_established).1 = SOCKET_ERROR ∧
    (Send { sample_env with write_code := -1, write_error := SSL_ERROR_WANT_READ } 0 3
        adapter_established).2.2 = [Event.SSL_write 0 3, Event.SetError EWOULDBLOCK] ∧
    (Send { sample_env with write_code := -1, write_error := SSL_ERROR_WANT_READ } 0 3
        adapter_established).2.1.state_ = SSLState.SSL_CONNECTED :=
  (established_Send_Recv { sample_env with write_code := -1, write_error := SSL_ERROR_WANT_READ }
    0 3 adapter_established (by decide) (by decide)).1.2.2.1 (Or.inl rfl)

/-- C19: for every adapter in `SSL_CONNECTING`, a read readiness event and a
write readiness event do the same thing, one handshake step with exactly one
`SSL_connect` call; when the step reports want-read or want-write the adapter
stays in `SSL_CONNECTING`, its session is still there (it is the same session
after the step; only it and the override flag, which the chain callback may
set, can differ from before), and no notification of any kind is emitted. -/
theorem handshaking_readiness_events (env : Env) (a : Adapter)
    (h : a.state_ = SSLState.SSL_CONNECTING) :
    OnWriteEvent env a = OnReadEvent env a ∧
    (OnReadEvent env a).2.count Event.SSL_connect = 1 ∧
    (env.connect.error = SSL_ERROR_WANT_READ ∨ env.connect.error = SSL_ERROR_WANT_WRITE →
      (OnReadEvent env a).1.state_ = SSLState.SSL_CONNECTING ∧
      (OnReadEvent env a).1.ssl_ = a.ssl_.map (fun _ => env.connect.session) ∧
      (OnReadEvent env a).1 =
        { a with
          custom_verification_succeeded_ :=
            (OnReadEvent env a).1.custom_verification_succeeded_
          ssl_ := (OnReadEvent env a).1.ssl_ } ∧
      ∀ e ∈ (OnReadEvent env a).2, e.is_notification = false) := by
  have hst : (SSLState.SSL_CONNECTING = SSLState.SSL_NONE) = False := by simp
  refine ⟨?_, ?_, ?_⟩
  · simp [OnWriteEvent, OnReadEvent, h]
  · have hc := (ContinueSSL_trace env a).1
    unfold OnReadEvent
    simp only [h, hst, if_false, if_true]
    split_ifs
    · simp [Error, List.count_append, List.count_cons, hc]
    · exact hc
  · intro hw
    have hne : env.connect.error ≠ SSL_ERROR_NONE := by
      rcases hw with hw | hw <;> rw [hw] <;> decide
    have hn := (ContinueSSL_trace env a).2.2.2 hne
    have hr := ContinueSSL_want env a hw
    have ha := SSL_connect_adapter env a
    have hev : OnReadEvent env a = ((SSL_connect env a).1, (SSL_connect env a).2) := by
      unfold OnReadEvent
      simp [h, hr]
    rw [hr] at hn
    rw [hev]
    refine ⟨?_, ?_, ?_, hn⟩
    · rw [ha]; exact h
    · rw [ha]
    · dsimp only
      rw [ha]

/-- C19, at an adapter in the middle of a handshake and a step that needs more
input. -/
theorem handshaking_readiness_events_witness :
    (OnReadEvent (env_handshake step_want_read) adapter_handshaking).2.count
        Event.SSL_connect = 1 ∧
    (OnReadEvent (env_handshake step_want_read) adapter_handshaking).1.state_ =
      SSLState.SSL_CONNECTING ∧
    ∀ e ∈ (OnReadEvent (env_handshake step_want_read) adapter_handshaking).2,
      e.is_notification = false :=
  ⟨(handshaking_readiness_events (env_handshake step_want_read) adapter_handshaking
      (by decide)).2.1,
   ((handshaking_readiness_events (env_handshake step_want_read) adapter_handshaking
      (by decide)).2.2 (Or.inl rfl)).1,
   ((handshaking_readiness_events (env_handshake step_want_read) adapter_handshaking
      (by decide)).2.2 (Or.inl rfl)).2.2.2⟩

/-- C15: for an adapter in `SSL_NONE` on a connected socket, when every engine
object can be had, the engine completes the handshake in the first step, the
host name check passes and the chain result is OK, `StartSSL` returns 0, the
final state is `SSL_CONNECTED`, the engine session is present, exactly one
connected notification is emitted and no close notification. -/
theorem StartSSL_completes (env : Env) (hostname : List Char) (restartable : Bool)
    (a : Adapter) (h : a.state_ = SSLState.SSL_NONE)
    (hs : env.socket_state = ConnState.CS_CONNECTED)
    (hav : engine_objects_available env a = true)
    (hdone : env.connect.error = SSL_ERROR_NONE)
    (hhost : VerifyServerName env.connect.session (some hostname) false = true)
    (hchain : env.connect.session.verify_result = X509_V_OK) :
    (StartSSL env hostname restartable a).1 = 0 ∧
    (StartSSL env hostname restartable a).2.1.state_ = SSLState.SSL_CONNECTED ∧
    (StartSSL env hostname restartable a).2.1.ssl_ = some env.connect.session ∧
    (StartSSL env hostname restartable a).2.2.count Event.SignalConnectEvent = 1 ∧
    ∀ e ∈ (StartSSL env hostname restartable a).2.2, e.is_close_notification = false := by
  have hav2 : engine_objects_available env
      { a with ssl_host_name_ := hostname, restartable_ := restartable,
               state_ := SSLState.SSL_CONNECTING } = true := hav
  have hB := BeginSSL_available env _ hav2
  obtain ⟨-, hx2, hx3⟩ := BeginSSL_context_spec env
    { a with ssl_host_name_ := hostname, restartable_ := restartable,
             state_ := SSLState.SSL_CONNECTING }
  have hS := StartSSL_connected env hostname restartable a h hs
  generalize BeginSSL_context env
    { a with ssl_host_name_ := hostname, restartable_ := restartable,
             state_ := SSLState.SSL_CONNECTING } = cx at hB hx2 hx3
  have hK := ContinueSSL_cases env
    { a with ssl_host_name_ := hostname, restartable_ := restartable,
             state_ := SSLState.SSL_CONNECTING, ssl_ctx_ := cx.1, ssl_ := env.ssl_new }
  obtain ⟨ht1, ht2, ht3, -⟩ := ContinueSSL_trace env
    { a with ssl_host_name_ := hostname, restartable_ := restartable,
             state_ := SSLState.SSL_CONNECTING, ssl_ctx_ := cx.1, ssl_ := env.ssl_new }
  have hA := SSL_connect_adapter env
    { a with ssl_host_name_ := hostname, restartable_ := restartable,
             state_ := SSLState.SSL_CONNECTING, ssl_ctx_ := cx.1, ssl_ := env.ssl_new }
  have hssl : env.ssl_new.isSome = true := by
    unfold engine_objects_available at hav
    simp only [Bool.and_eq_true] at hav
    exact hav.2
  have hP := SSLPostConnectionCheck_of_ok
    (SSL_connect env
      { a with ssl_host_name_ := hostname, restartable_ := restartable,
               state_ := SSLState.SSL_CONNECTING, ssl_ctx_ := cx.1, ssl_ := env.ssl_new }).1
    env.connect.session (some hostname) hhost hchain
  rcases hK with ⟨-, hp, -⟩ | ⟨-, -, hr⟩ | ⟨hw, -⟩ | ⟨hn, -, -, -⟩
  · rw [hP] at hp
    exact absurd hp (by decide)
  · rw [hr] at hB ht2 ht3
    simp only [ne_eq, not_true_eq_false, if_false] at hB
    rw [hB] at hS
    simp only [ne_eq, not_true_eq_false, if_false] at hS
    rw [hS]
    refine ⟨rfl, rfl, ?_, ?_, ?_⟩
    · dsimp only
      rw [hA]
      dsimp only
      cases hx : env.ssl_new with
      | none => rw [hx] at hssl; exact absurd hssl (by decide)
      | some v => rfl
    · dsimp only at ht3 ⊢
      simp only [true_and, hdone, if_true] at ht3
      simp [List.count_cons, List.count_append, hx3, ht3]
    · intro e he
      dsimp only at he ht2
      simp only [List.mem_cons, List.mem_append, List.not_mem_nil, or_false] at he
      rcases he with he | (he | he | he) | he
      · rw [he]; rfl
      · exact not_notification_not_close e (hx2 e he)
      · rw [he]; rfl
      · rw [he]; rfl
      · exact ht2 e (by simpa using he)
  · rcases hw with hw | hw <;> rw [hdone] at hw <;> exact absurd hw (by decide)
  · exact absurd hdone hn

/-- C15, at a fresh adapter, the host `shop.example.com` and a handshake that
completes in the first step with a certificate whose SAN entry is
`*.example.com` and a chain result of OK. -/
theorem StartSSL_completes_witness :
    (StartSSL (env_handshake (step_complete X509_V_OK)) "shop.example.com".toList false
      Adapter.new).1 = 0 ∧
    (StartSSL (env_handshake (step_complete X509_V_OK)) "shop.example.com".toList false
      Adapter.new).2.1.state_ = SSLState.SSL_CONNECTED ∧
    (StartSSL (env_handshake (step_complete X509_V_OK)) "shop.example.com".toList false
      Adapter.new).2.1.ssl_ = some (step_complete X509_V_OK).session ∧
    (StartSSL (env_handshake (step_complete X509_V_OK)) "shop.example.com".toList false
      Adapter.new).2.2.count Event.SignalConnectEvent = 1 ∧
    ∀ e ∈ (StartSSL (env_handshake (step_complete X509_V_OK)) "shop.example.com".toList false
      Adapter.new).2.2, e.is_close_notification = false :=
  StartSSL_completes (env_handshake (step_complete X509_V_OK)) "shop.example.com".toList false
    Adapter.new rfl rfl (by decide) rfl (by decide) rfl

/-- C16, the claim as stated fails: on a connected socket, with no custom
predicate and the ignore switch clear, a handshake that completes with an
untrusted chain, and one that the engine aborts, both leave the adapter in
`SSL_ERROR` with the session freed, but `StartSSL` emits no close notification:
it returns `-1` and records it with `SetError`. -/
theorem StartSSL_untrusted_no_close_notification :
    StartSSL (env_handshake (step_complete 18)) "shop.example.com".toList false Adapter.new =
      (-1,
        { Adapter.new with
          state_ := SSLState.SSL_ERROR, ssl_host_name_ := "shop.example.com".toList },
        [Event.socket_GetState, Event.SSL_CTX_new, Event.d2i_X509, Event.X509_STORE_add_cert,
          Event.BIO_new, Event.SSL_new, Event.SSL_connect, Event.SSL_free, Event.SSL_CTX_free,
          Event.SetError (-1)]) ∧
    StartSSL (env_handshake step_fatal) "shop.example.com".toList false Adapter.new =
      (-1,
        { Adapter.new with
          state_ := SSLState.SSL_ERROR, ssl_host_name_ := "shop.example.com".toList },
        [Event.socket_GetState, Event.SSL_CTX_new, Event.d2i_X509, Event.X509_STORE_add_cert,
          Event.BIO_new, Event.SSL_new, Event.SSL_connect, Event.SSL_free, Event.SSL_CTX_free,
          Event.SetError (-1)]) := by
  decide

/-- C16 (amended): for an adapter in `SSL_NONE` with the override flag clear,
on a connected socket, with no custom predicate and the ignore switch clear,
when the first handshake step completes with a chain result other than OK or
is aborted by the engine with a fatal error, `StartSSL` returns a non-zero
code, the final state is `SSL_ERROR`, the engine session and the context are
freed, the code is recorded with `SetError` as the last action, and no
notification, so no close notification, is emitted. -/
theorem StartSSL_untrusted (env : Env) (hostname : List Char) (restartable : Bool)
    (a : Adapter) (h : a.state_ = SSLState.SSL_NONE)
    (hs : env.socket_state = ConnState.CS_CONNECTED)
    (hcb : env.custom_verify_callback_ = none) (hig : a.ignore_bad_cert_ = false)
    (hov : a.custom_verification_succeeded_ = false)
    (hfail : (env.connect.error = SSL_ERROR_NONE ∧
        env.connect.session.verify_result ≠ X509_V_OK) ∨
      (env.connect.error ≠ SSL_ERROR_NONE ∧ env.connect.error ≠ SSL_ERROR_WANT_READ ∧
        env.connect.error ≠ SSL_ERROR_WANT_WRITE)) :
    (StartSSL env hostname restartable a).1 ≠ 0 ∧
    (StartSSL env hostname restartable a).2.1.state_ = SSLState.SSL_ERROR ∧
    (StartSSL env hostname restartable a).2.1.ssl_ = none ∧
    (StartSSL env hostname restartable a).2.1.ssl_ctx_ = none ∧
    (∀ e ∈ (StartSSL env hostname restartable a).2.2, e.is_notification = false) ∧
    (StartSSL env hostname restartable a).2.2.getLast? =
      some (Event.SetError (StartSSL env hostname restartable a).1) := by
  have hf := BeginSSL_untrusted env
    { a with ssl_host_name_ := hostname, restartable_ := restartable,
             state_ := SSLState.SSL_CONNECTING } hcb hig hov hfail
  obtain ⟨h1, h2, h3, h4, h5⟩ := StartSSL_failure env hostname restartable a h hs hf
  exact ⟨h1, h2, h3.1, h3.2.1, h4, h5⟩

/-- C16, at a fresh adapter and a handshake that completes with the chain
result 18 (self-signed certificate). -/
theorem StartSSL_untrusted_witness :
    (StartSSL (env_handshake (step_complete 18)) "shop.example.com".toList false
      Adapter.new).1 ≠ 0 ∧
    (StartSSL (env_handshake (step_complete 18)) "shop.example.com".toList false
      Adapter.new).2.1.state_ = SSLState.SSL_ERROR ∧
    (StartSSL (env_handshake (step_complete 18)) "shop.example.com".toList false
      Adapter.new).2.1.ssl_ = none :=
  ⟨(StartSSL_untrusted (env_handshake (step_complete 18)) "shop.example.com".toList false
      Adapter.new rfl rfl rfl rfl rfl (Or.inl ⟨rfl, by decide⟩)).1,
   (StartSSL_untrusted (env_handshake (step_complete 18)) "shop.example.com".toList false
      Adapter.new rfl rfl rfl rfl rfl (Or.inl ⟨rfl, by decide⟩)).2.1,
   (StartSSL_untrusted (env_handshake (step_complete 18)) "shop.example.com".toList false
      Adapter.new rfl rfl rfl rfl rfl (Or.inl ⟨rfl, by decide⟩)).2.2.1⟩

/-- C11, the claim as stated fails: a restartable adapter that waits for the
connect event and whose handshake, begun by that event, is aborted by the
engine is back in `SSL_NONE`; it is reachable, and `Close` moves it from
`SSL_NONE` to `SSL_WAIT`. -/
theorem Close_after_failed_handshake_rearms :
    Reachable (OnConnectEvent (env_handshake step_fatal) adapter_waiting).1 ∧
    (OnConnectEvent (env_handshake step_fatal) adapter_waiting).1.state_ = SSLState.SSL_NONE ∧
    (Close sample_env (OnConnectEvent (env_handshake step_fatal) adapter_waiting).1).2.1.state_ =
      SSLState.SSL_WAIT :=
  ⟨Reachable.step (env_handshake step_fatal) Op.OnConnectEvent sample_adapters_reachable.2.2,
    by decide, by decide⟩

/-- C11 (amended): for every reachable adapter in `SSL_NONE`, `Close` frees
nothing, forwards exactly one close to the wrapped socket, returns its result
and changes no field other than the state; when the restartable flag is clear
the state stays `SSL_NONE`, so the adapter is left as it was, and when the
flag is set the state becomes `SSL_WAIT`. -/
theorem Close_in_NotStarted (env : Env) (a : Adapter) (hr : Reachable a)
    (hs : a.state_ = SSLState.SSL_NONE) :
    (Close env a).1 = env.socket_close ∧
    (Close env a).2.2 = [Event.socket_Close] ∧
    (Close env a).2.1 =
      { a with state_ := if a.restartable_ then SSLState.SSL_WAIT else SSLState.SSL_NONE } ∧
    (a.restartable_ = false → (Close env a).2.1 = a) := by
  have hc := (session_invariant_reachable a hr).1 (Or.inl hs)
  rw [Close_of_clean env a hc]
  refine ⟨rfl, rfl, rfl, ?_⟩
  intro hf
  cases a
  simp only at hs hf
  subst hs hf
  rfl

/-- C11, at a fresh adapter, and at a fresh adapter after a first `Close`. -/
theorem Close_in_NotStarted_witness :
    (Close sample_env Adapter.new).2.1 = Adapter.new ∧
    (Close sample_env Adapter.new).2.2 = [Event.socket_Close] ∧
    (Close sample_env (Close sample_env Adapter.new).2.1).2.1 =
      (Close sample_env Adapter.new).2.1 :=
  ⟨(Close_in_NotStarted sample_env Adapter.new Reachable.new rfl).2.2.2 rfl,
   (Close_in_NotStarted sample_env Adapter.new Reachable.new rfl).2.1,
   (Close_in_NotStarted sample_env (Close sample_env Adapter.new).2.1
      (Reachable.step sample_env Op.Close Reachable.new) rfl).2.2.2 rfl⟩

/-- C13, the claim as stated fails: an adapter in the middle of a handshake
whose next step, run by a read readiness event, is aborted by the engine ends
in `SSL_ERROR` with its engine session still present; it is reachable. -/
theorem failed_adapter_keeps_session :
    Reachable (OnReadEvent (env_handshake step_fatal) adapter_handshaking).1 ∧
    (OnReadEvent (env_handshake step_fatal) adapter_handshaking).1.state_ =
      SSLState.SSL_ERROR ∧
    (OnReadEvent (env_handshake step_fatal) adapter_handshaking).1.ssl_ ≠ none :=
  ⟨Reachable.step (env_handshake step_fatal) Op.OnReadEvent sample_adapters_reachable.1,
    by decide, by decide⟩

/-- C13 (amended): in every state reachable from a freshly constructed adapter
by `StartSSL`, `Send`, `Recv`, `Close` and the connect, read and write
readiness events, the engine session `ssl_` is non-null whenever the state is
`SSL_CONNECTING` or `SSL_CONNECTED`, and null whenever the state is `SSL_NONE`
or `SSL_WAIT`. -/
theorem reachable_session_by_state (a : Adapter) (hr : Reachable a) :
    (a.state_ = SSLState.SSL_CONNECTING ∨ a.state_ = SSLState.SSL_CONNECTED →
      a.ssl_ ≠ none) ∧
    (a.state_ = SSLState.SSL_NONE ∨ a.state_ = SSLState.SSL_WAIT → a.ssl_ = none) := by
  obtain ⟨h1, h2⟩ := session_invariant_reachable a hr
  refine ⟨fun hs hn => ?_, fun hs => (h1 hs).1⟩
  have := h2 hs
  rw [hn] at this
  exact absurd this (by decide)

/-- C13, at the adapter in the middle of a handshake and at the restartable
adapter that waits for the connect event. -/
theorem reachable_session_by_state_witness :
    adapter_handshaking.ssl_ ≠ none ∧ adapter_waiting.ssl_ = none :=
  ⟨(reachable_session_by_state adapter_handshaking sample_adapters_reachable.1).1
      (Or.inl (by decide)),
   (reachable_session_by_state adapter_waiting sample_adapters_reachable.2.2).2
      (Or.inr (by decide))⟩

/-- C14, the claim as stated fails: after a fatal engine error in a handshake
step run by a read readiness event, the adapter is in `SSL_ERROR` and a close
notification is emitted, but the engine session and the context are still
there; after the same error in a handshake begun by the connect event, the
final state is `SSL_NONE`, not `SSL_ERROR`; after a fatal engine error in
`Send`, the adapter is in `SSL_ERROR` with its session still there. -/
theorem terminal_failure_not_cleaned_up :
    OnReadEvent (env_handshake step_fatal) adapter_handshaking =
      ({ adapter_handshaking with state_ := SSLState.SSL_ERROR },
        [Event.SSL_connect, Event.SetError (-1), Event.SignalCloseEvent (-1)]) ∧
    adapter_handshaking.ssl_ ≠ none ∧ adapter_handshaking.ssl_ctx_ ≠ none ∧
    (OnConnectEvent (env_handshake step_fatal) adapter_waiting).1.state_ = SSLState.SSL_NONE ∧
    (OnConnectEvent (env_handshake step_fatal) adapter_waiting).2.getLast? =
      some (Event.SignalCloseEvent (-1)) ∧
    (Send { sample_env with write_code := -1, write_error := SSL_ERROR_SSL } 0 3
      adapter_established).2.1.state_ = SSLState.SSL_ERROR ∧
    (Send { sample_env with write_code := -1, write_error := SSL_ERROR_SSL } 0 3
      adapter_established).2.1.ssl_ ≠ none := by
  decide

/-- C14 (amended): on a terminal failure of a handshake (a non-zero result of
the step: fatal engine error or failed post-connection check) begun by
`StartSSL` or continued by a read or write readiness event, and on a fatal
engine error in `Send` or `Recv`, the adapter ends in `SSL_ERROR`.  The engine
session and the context are freed when the handshake was begun by `StartSSL`
or by the connect event, and when a step run by a read or write readiness
event fails the post-connection check.  `StartSSL`, `Send` and `Recv` emit no
notification; the connect event and the read and write events emit one close
notification with the failure code, as the last action of the operation, after
every free and, for the read and write events, after `SetError`. -/
theorem terminal_failures (env : Env) (hostname : List Char) (restartable : Bool)
    (pv cb : Nat) (a : Adapter) :
    (a.state_ = SSLState.SSL_NONE → env.socket_state = ConnState.CS_CONNECTED →
      (StartSSL env hostname restartable a).1 ≠ 0 →
      (StartSSL env hostname restartable a).2.1.state_ = SSLState.SSL_ERROR ∧
      no_handshake_state (StartSSL env hostname restartable a).2.1 ∧
      ∀ e ∈ (StartSSL env hostname restartable a).2.2, e.is_notification = false) ∧
    (a.state_ = SSLState.SSL_WAIT →
      (BeginSSL env { a with state_ := SSLState.SSL_CONNECTING }).1 ≠ 0 →
      no_handshake_state (OnConnectEvent env a).1 ∧
      (OnConnectEvent env a).2 =
        (BeginSSL env { a with state_ := SSLState.SSL_CONNECTING }).2.2 ++
          [Event.SignalCloseEvent (BeginSSL env { a with state_ := SSLState.SSL_CONNECTING }).1] ∧
      ∀ e ∈ (BeginSSL env { a with state_ := SSLState.SSL_CONNECTING }).2.2,
        e.is_notification = false) ∧
    (a.state_ = SSLState.SSL_CONNECTING → (ContinueSSL env a).1 ≠ 0 →
      OnWriteEvent env a = OnReadEvent env a ∧
      (OnReadEvent env a).1.state_ = SSLState.SSL_ERROR ∧
      (OnReadEvent env a).2 =
        (ContinueSSL env a).2.2 ++
          [Event.SetError (ContinueSSL env a).1, Event.SignalCloseEvent (ContinueSSL env a).1] ∧
      (∀ e ∈ (ContinueSSL env a).2.2, e.is_notification = false) ∧
      (env.connect.error = SSL_ERROR_NONE → no_handshake_state (OnReadEvent env a).1)) ∧
    (a.state_ = SSLState.SSL_CONNECTED → cb ≠ 0 →
      (env.write_error ≠ SSL_ERROR_NONE ∧ env.write_error ≠ SSL_ERROR_WANT_READ ∧
        env.write_error ≠ SSL_ERROR_WANT_WRITE ∧ env.write_error ≠ SSL_ERROR_ZERO_RETURN →
        (Send env pv cb a).2.1.state_ = SSLState.SSL_ERROR ∧
        ∀ e ∈ (Send env pv cb a).2.2, e.is_notification = false) ∧
      (env.read_error ≠ SSL_ERROR_NONE ∧ env.read_error ≠ SSL_ERROR_WANT_READ ∧
        env.read_error ≠ SSL_ERROR_WANT_WRITE ∧ env.read_error ≠ SSL_ERROR_ZERO_RETURN →
        (Recv env pv cb a).2.1.state_ = SSLState.SSL_ERROR ∧
        ∀ e ∈ (Recv env pv cb a).2.2, e.is_notification = false)) := by
  refine ⟨?_, ?_, ?_, ?_⟩
  · intro h hs hf
    have hS := StartSSL_connected env hostname restartable a h hs
    have hb : (BeginSSL env { a with ssl_host_name_ := hostname, restartable_ := restartable, state_ := SSLState.SSL_CONNECTING }).1 ≠ 0 := by
      intro hb
      rw [hS] at hf
      simp [hb] at hf
    obtain ⟨-, h2, h3, h4, -⟩ := StartSSL_failure env hostname restartable a h hs hb
    exact ⟨h2, h3, h4⟩
  · intro h hf
    obtain ⟨⟨x, hx⟩, hn⟩ := BeginSSL_failure env _ hf
    have hr : OnConnectEvent env a =
        ((BeginSSL env { a with state_ := SSLState.SSL_CONNECTING }).2.1,
          (BeginSSL env { a with state_ := SSLState.SSL_CONNECTING }).2.2 ++
            [Event.SignalCloseEvent
              (BeginSSL env { a with state_ := SSLState.SSL_CONNECTING }).1]) := by
      simp [OnConnectEvent, h, hf]
    rw [hr]
    refine ⟨?_, rfl, hn⟩
    dsimp only
    rw [hx]
    exact ⟨rfl, rfl, rfl, rfl, rfl⟩
  · intro h hf
    obtain ⟨hn, hcase⟩ := ContinueSSL_failure env a hf
    have hr : OnReadEvent env a =
        ({ (ContinueSSL env a).2.1 with state_ := SSLState.SSL_ERROR },
          (ContinueSSL env a).2.2 ++
            [Event.SetError (ContinueSSL env a).1,
              Event.SignalCloseEvent (ContinueSSL env a).1]) := by
      simp [OnReadEvent, h, hf, Error]
    refine ⟨?_, ?_, ?_, hn, ?_⟩
    · simp [OnWriteEvent, OnReadEvent, h]
    · rw [hr]
    · rw [hr]
    · intro h0
      rcases hcase with ⟨-, -, -, h2, -⟩ | ⟨hne, -⟩
      · rw [hr]
        dsimp only
        rw [h2]
        exact ⟨rfl, rfl, rfl, rfl, rfl⟩
      · exact absurd h0 hne
  · intro h hcb
    constructor
    · rintro ⟨h0, h1, h2, h3⟩
      simp [Send, h, hcb, h0, h1, h2, h3, Error, Event.is_notification]
    · rintro ⟨h0, h1, h2, h3⟩
      simp [Recv, h, hcb, h0, h1, h2, h3, Error, Event.is_notification]

/-- C14, at an adapter in the middle of a handshake whose next step, run by a
read readiness event, completes with an untrusted chain. -/
theorem terminal_failures_witness :
    (OnReadEvent (env_handshake (step_complete 18)) adapter_handshaking).1.state_ =
      SSLState.SSL_ERROR ∧
    no_handshake_state (OnReadEvent (env_handshake (step_complete 18)) adapter_handshaking).1 ∧
    (OnReadEvent (env_handshake (step_complete 18)) adapter_handshaking).2 =
      (ContinueSSL (env_handshake (step_complete 18)) adapter_handshaking).2.2 ++
        [Event.SetError (ContinueSSL (env_handshake (step_complete 18)) adapter_handshaking).1,
          Event.SignalCloseEvent
            (ContinueSSL (env_handshake (step_complete 18)) adapter_handshaking).1] :=
  ⟨((terminal_failures (env_handshake (step_complete 18)) [] false 0 0
      adapter_handshaking).2.2.1 (by decide) (by decide)).2.1,
   ((terminal_failures (env_handshake (step_complete 18)) [] false 0 0
      adapter_handshaking).2.2.1 (by decide) (by decide)).2.2.2.2 rfl,
   ((terminal_failures (env_handshake (step_complete 18)) [] false 0 0
      adapter_handshaking).2.2.1 (by decide) (by decide)).2.2.1⟩

/-- C21: a handshake step or an established `Send`/`Recv` that ends in a
terminal failure reports a non-zero code.  `ContinueSSL` returns `-1` when the
post-connection check fails; on a fatal engine error it returns the engine's
return code when that is non-zero and `-1` when it is zero; a read or write
readiness event passes that code on in its close notification.  `Send` and
`Recv` record, with `SetError`, the engine's return code when that is non-zero
and `-1` when it is zero. -/
theorem terminal_failure_codes (env : Env) (pv cb : Nat) (a : Adapter) :
    (env.connect.error = SSL_ERROR_NONE →
      SSLPostConnectionCheck (SSL_connect env a).1 env.connect.session
        (some a.ssl_host_name_) = false →
      (ContinueSSL env a).1 = -1) ∧
    (env.connect.error ≠ SSL_ERROR_NONE ∧ env.connect.error ≠ SSL_ERROR_WANT_READ ∧
        env.connect.error ≠ SSL_ERROR_WANT_WRITE →
      (ContinueSSL env a).1 ≠ 0 ∧
      (env.connect.code ≠ 0 → (ContinueSSL env a).1 = env.connect.code) ∧
      (env.connect.code = 0 → (ContinueSSL env a).1 = -1)) ∧
    (a.state_ = SSLState.SSL_CONNECTING → (ContinueSSL env a).1 ≠ 0 →
      (OnReadEvent env a).2.getLast? = some (Event.SignalCloseEvent (ContinueSSL env a).1) ∧
      (OnWriteEvent env a).2.getLast? = some (Event.SignalCloseEvent (ContinueSSL env a).1)) ∧
    (a.state_ = SSLState.SSL_CONNECTED → cb ≠ 0 →
      (env.write_error ≠ SSL_ERROR_NONE ∧ env.write_error ≠ SSL_ERROR_WANT_READ ∧
        env.write_error ≠ SSL_ERROR_WANT_WRITE ∧ env.write_error ≠ SSL_ERROR_ZERO_RETURN →
        (Send env pv cb a).2.2 =
          [Event.SSL_write pv cb,
            Event.SetError (if env.write_code ≠ 0 then env.write_code else -1)] ∧
        (if env.write_code ≠ 0 then env.write_code else -1) ≠ 0) ∧
      (env.read_error ≠ SSL_ERROR_NONE ∧ env.read_error ≠ SSL_ERROR_WANT_READ ∧
        env.read_error ≠ SSL_ERROR_WANT_WRITE ∧ env.read_error ≠ SSL_ERROR_ZERO_RETURN →
        (Recv env pv cb a).2.2 =
          [Event.SSL_read pv cb,
            Event.SetError (if env.read_code ≠ 0 then env.read_code else -1)] ∧
        (if env.read_code ≠ 0 then env.read_code else -1) ≠ 0)) := by
  have hcode : ∀ c : Int, (if c ≠ 0 then c else -1) ≠ 0 := by
    intro c
    split_ifs with hc
    · exact hc
    · decide
  refine ⟨?_, ?_, ?_, ?_⟩
  · intro h0 hp
    rcases ContinueSSL_cases env a with ⟨-, -, hr⟩ | ⟨-, hp2, -⟩ | ⟨hw, -⟩ | ⟨hn, -, -, -⟩
    · rw [hr]
    · rw [hp] at hp2
      exact absurd hp2 (by decide)
    · rcases hw with hw | hw <;> rw [h0] at hw <;> exact absurd hw (by decide)
    · exact absurd h0 hn
  · rintro ⟨h0, h1, h2⟩
    rcases ContinueSSL_cases env a with ⟨h, -, -⟩ | ⟨h, -, -⟩ | ⟨hw, -⟩ | ⟨-, -, -, hr⟩
    · exact absurd h h0
    · exact absurd h h0
    · rcases hw with hw | hw
      · exact absurd hw h1
      · exact absurd hw h2
    · rw [hr]
      refine ⟨hcode _, ?_, ?_⟩
      · intro hc
        simp [hc]
      · intro hc
        simp [hc]
  · intro h hf
    have hr : OnReadEvent env a =
        ({ (ContinueSSL env a).2.1 with state_ := SSLState.SSL_ERROR },
          (ContinueSSL env a).2.2 ++
            [Event.SetError (ContinueSSL env a).1,
              Event.SignalCloseEvent (ContinueSSL env a).1]) := by
      simp [OnReadEvent, h, hf, Error]
    have hw : OnWriteEvent env a = OnReadEvent env a := by
      simp [OnWriteEvent, OnReadEvent, h]
    rw [hw, hr]
    simp [List.getLast?_append]
  · intro h hcb
    constructor
    · rintro ⟨h0, h1, h2, h3⟩
      refine ⟨?_, hcode _⟩
      simp [Send, h, hcb, h0, h1, h2, h3, Error]
    · rintro ⟨h0, h1, h2, h3⟩
      refine ⟨?_, hcode _⟩
      simp [Recv, h, hcb, h0, h1, h2, h3, Error]

/-- C21, at an adapter in the middle of a handshake whose next step the engine
aborts with the return code 0, and at a step that completes with an untrusted
chain: both report `-1`. -/
theorem terminal_failure_codes_witness :
    (ContinueSSL (env_handshake ⟨0, SSL_ERROR_SSL, ⟨none, 0⟩, []⟩) adapter_handshaking).1 = -1 ∧
    (ContinueSSL (env_handshake (step_complete 18)) adapter_handshaking).1 = -1 ∧
    (OnReadEvent (env_handshake step_fatal) adapter_handshaking).2.getLast? =
      some (Event.SignalCloseEvent
        (ContinueSSL (env_handshake step_fatal) adapter_handshaking).1) :=
  ⟨((terminal_failure_codes (env_handshake ⟨0, SSL_ERROR_SSL, ⟨none, 0⟩, []⟩) 0 0
      adapter_handshaking).2.1 (by decide)).2.2 rfl,
   (terminal_failure_codes (env_handshake (step_complete 18)) 0 0 adapter_handshaking).1
      rfl (by decide),
   ((terminal_failure_codes (env_handshake step_fatal) 0 0 adapter_handshaking).2.2.1
      (by decide) (by decide)).1⟩

/-! ## The transport bridge -/

/-- C22: for every non-null buffer, `socket_read` makes exactly one `Recv`
call on the wrapped socket, for that buffer, and apart from it only asks
`IsBlocking`.  It returns the result of `Recv` unchanged when that is
positive and `-1` otherwise.  It records end-of-stream (`num = 1`) exactly
when `Recv` returned 0.  Afterwards the read-retry flag, with the should-retry
flag, is set exactly when `Recv` returned a negative value and the socket
reports that it would block, and the other retry flags are clear, whatever
the flags were before the call. -/
theorem socket_read_result (b : BIO) (out : Nat) (outl recv : Int) (blocking : Bool) :
    (socket_read b (some out) outl recv blocking).2.2.count (SocketCall.Recv out outl) = 1 ∧
    (∀ c ∈ (socket_read b (some out) outl recv blocking).2.2,
      c = SocketCall.Recv out outl ∨ c = SocketCall.IsBlocking) ∧
    (recv > 0 → (socket_read b (some out) outl recv blocking).1 = recv) ∧
    (recv ≤ 0 → (socket_read b (some out) outl recv blocking).1 = -1) ∧
    (socket_read b (some out) outl recv blocking).2.1.num = (if recv = 0 then 1 else b.num) ∧
    (socket_read b (some out) outl recv blocking).2.1.retry_read =
      (decide (recv < 0) && blocking) ∧
    (socket_read b (some out) outl recv blocking).2.1.should_retry =
      (decide (recv < 0) && blocking) ∧
    (socket_read b (some out) outl recv blocking).2.1.retry_write = false ∧
    (socket_read b (some out) outl recv blocking).2.1.retry_io_special = false ∧
    (socket_read b (some out) outl recv blocking).2.1.init = b.init ∧
    (socket_read b (some out) outl recv blocking).2.1.shutdown = b.shutdown ∧
    (socket_read b (some out) outl recv blocking).2.1.ptr = b.ptr := by
  rcases lt_trichotomy recv 0 with h | h | h
  · have h1 : ¬ recv > 0 := by omega
    have h2 : ¬ recv = 0 := by omega
    have h3 : recv ≤ 0 := by omega
    cases blocking <;>
      simp [socket_read, BIO_clear_retry_flags, BIO_set_retry_read, h, h1, h2, h3,
        List.count_cons]
  · subst h
    cases blocking <;>
      simp [socket_read, BIO_clear_retry_flags, BIO_set_retry_read, List.count_cons]
  · have h1 : ¬ recv < 0 := by omega
    have h2 : ¬ recv = 0 := by omega
    have h3 : ¬ recv ≤ 0 := by omega
    cases blocking <;>
      simp [socket_read, BIO_clear_retry_flags, BIO_set_retry_read, h, h1, h2, h3,
        List.count_cons]

/-- C22, at a bridge that still carries the write-retry flag of an earlier
call, for a `Recv` that returns five bytes and for one that returns nothing. -/
theorem socket_read_result_witness :
    (socket_read { BIO_blank with retry_write := true, should_retry := true }
      (some 7) 16 5 true).1 = 5 ∧
    (socket_read { BIO_blank with retry_write := true, should_retry := true }
      (some 7) 16 0 true).1 = -1 :=
  ⟨(socket_read_result { BIO_blank with retry_write := true, should_retry := true }
      7 16 5 true).2.2.1 (by decide),
   (socket_read_result { BIO_blank with retry_write := true, should_retry := true }
      7 16 0 true).2.2.2.1 (by decide)⟩

/-- A newly created bridge has its end-of-stream marker at 0. -/
theorem BIO_new_socket_num (allocated : Bool) (socket : Nat) (b : BIO)
    (h : BIO_new_socket allocated socket = some b) :
    b.num = 0 ∧ b.ptr = some socket ∧ b.init = 1 := by
  cases allocated with
  | false => simp [BIO_new_socket, BIO_new] at h
  | true =>
    have hb : BIO_new_socket true socket =
        some { (socket_new BIO_blank).2 with ptr := some socket } := rfl
    rw [hb] at h
    cases h
    exact ⟨rfl, rfl, rfl⟩

/-- One bridge call sets the end-of-stream marker to 1 when it is a read that
received 0, and leaves it alone otherwise. -/
theorem run_bridge_op_num (b : BIO) (op : BridgeOp) :
    (run_bridge_op b op).2.num = if op.received_zero = true then 1 else b.num := by
  cases op with
  | read out outl recv blocking =>
    cases out with
    | none => simp [run_bridge_op, socket_read, BridgeOp.received_zero]
    | some out =>
      by_cases h0 : recv = 0
      · subst h0
        simp [run_bridge_op, socket_read, BridgeOp.received_zero]
      · by_cases h1 : recv > 0 <;> cases blocking <;>
          simp [run_bridge_op, socket_read, BridgeOp.received_zero, h0, h1,
            BIO_clear_retry_flags, BIO_set_retry_read]
  | write inp inl send blocking =>
    cases inp with
    | none => simp [run_bridge_op, socket_write, BridgeOp.received_zero]
    | some inp =>
      by_cases h1 : send > 0 <;> cases blocking <;>
        simp [run_bridge_op, socket_write, BridgeOp.received_zero, h1,
          BIO_clear_retry_flags, BIO_set_retry_write]
  | puts str text send blocking =>
    by_cases h1 : send > 0 <;> cases blocking <;>
      simp [run_bridge_op, socket_puts, socket_write, BridgeOp.received_zero, h1,
        BIO_clear_retry_flags, BIO_set_retry_write]
  | ctrl cmd num ptr => simp [run_bridge_op, BridgeOp.received_zero]

/-- After a sequence of bridge calls the end-of-stream marker is 1 when one of
them was a read that received 0, and as at the start otherwise. -/
theorem run_bridge_ops_num (b : BIO) (ops : List BridgeOp) :
    (run_bridge_ops b ops).num =
      if ops.any BridgeOp.received_zero = true then 1 else b.num := by
  induction ops generalizing b with
  | nil => simp [run_bridge_ops]
  | cons op rest ih =>
    simp only [run_bridge_ops, ih, run_bridge_op_num, List.any_cons, Bool.or_eq_true]
    by_cases h1 : op.received_zero = true <;> by_cases h2 : rest.any BridgeOp.received_zero = true <;>
      simp [h1, h2]

/-- A bridge call received 0 exactly when it is a read into a non-null buffer
with a `Recv` result of 0. -/
theorem received_zero_iff (op : BridgeOp) :
    op.received_zero = true ↔
      ∃ out outl blocking, op = BridgeOp.read (some out) outl 0 blocking := by
  cases op with
  | read out outl recv blocking =>
    cases out with
    | none => simp [BridgeOp.received_zero]
    | some out =>
      simp only [BridgeOp.received_zero, beq_iff_eq, BridgeOp.read.injEq, Option.some.injEq]
      constructor
      · intro h
        exact ⟨out, outl, blocking, rfl, rfl, h, rfl⟩
      · rintro ⟨_, _, _, -, -, h, -⟩
        exact h
  | write inp inl send blocking => simp [BridgeOp.received_zero]
  | puts str text send blocking => simp [BridgeOp.received_zero]
  | ctrl cmd num ptr => simp [BridgeOp.received_zero]

/-- C23: after every sequence of reads, writes, puts and control calls on a
newly created bridge, the end-of-stream query returns 1 if and only if one of
the calls was a `socket_read` that received 0 from the wrapped socket, and 0
otherwise (the marker starts at 0; no write and no control call, the reset
command included, changes the bridge's marker); the pending and write-pending
queries return 0 and the flush command returns 1. -/
theorem bridge_end_of_stream (allocated : Bool) (socket : Nat) (b : BIO)
    (ops : List BridgeOp) (num : Int) (ptr : Nat)
    (h : BIO_new_socket allocated socket = some b) :
    b.num = 0 ∧
    (socket_ctrl (run_bridge_ops b ops) BIO_CTRL_EOF num ptr = 1 ↔
      ∃ op ∈ ops, ∃ out outl blocking, op = BridgeOp.read (some out) outl 0 blocking) ∧
    (socket_ctrl (run_bridge_ops b ops) BIO_CTRL_EOF num ptr = 0 ↔
      ¬ ∃ op ∈ ops, ∃ out outl blocking, op = BridgeOp.read (some out) outl 0 blocking) ∧
    (∀ cmd, (run_bridge_op (run_bridge_ops b ops) (BridgeOp.ctrl cmd num ptr)).2 =
      run_bridge_ops b ops) ∧
    socket_ctrl (run_bridge_ops b ops) BIO_CTRL_RESET num ptr = 0 ∧
    socket_ctrl (run_bridge_ops b ops) BIO_CTRL_PENDING num ptr = 0 ∧
    socket_ctrl (run_bridge_ops b ops) BIO_CTRL_WPENDING num ptr = 0 ∧
    socket_ctrl (run_bridge_ops b ops) BIO_CTRL_FLUSH num ptr = 1 := by
  have h0 := (BIO_new_socket_num allocated socket b h).1
  have hn := run_bridge_ops_num b ops
  have hany : ops.any BridgeOp.received_zero = true ↔
      ∃ op ∈ ops, ∃ out outl blocking, op = BridgeOp.read (some out) outl 0 blocking := by
    rw [List.any_eq_true]
    constructor
    · rintro ⟨op, hm, hz⟩
      exact ⟨op, hm, (received_zero_iff op).1 hz⟩
    · rintro ⟨op, hm, hz⟩
      exact ⟨op, hm, (received_zero_iff op).2 hz⟩
  have heof : socket_ctrl (run_bridge_ops b ops) BIO_CTRL_EOF num ptr =
      (run_bridge_ops b ops).num := by
    simp [socket_ctrl, BIO_CTRL_EOF, BIO_CTRL_RESET]
  refine ⟨h0, ?_, ?_, fun _ => rfl, ?_, ?_, ?_, ?_⟩
  · rw [heof, hn, h0, ← hany]
    by_cases ha : ops.any BridgeOp.received_zero = true <;> simp [ha]
  · rw [heof, hn, h0, ← hany]
    by_cases ha : ops.any BridgeOp.received_zero = true <;> simp [ha]
  · simp [socket_ctrl]
  · simp [socket_ctrl, BIO_CTRL_PENDING, BIO_CTRL_RESET, BIO_CTRL_EOF]
  · simp [socket_ctrl, BIO_CTRL_WPENDING, BIO_CTRL_RESET, BIO_CTRL_EOF]
  · simp [socket_ctrl, BIO_CTRL_FLUSH, BIO_CTRL_RESET, BIO_CTRL_EOF, BIO_CTRL_WPENDING,
      BIO_CTRL_PENDING]

/-- C23, at a new bridge on which a read receives 0, then a reset and a
blocked write follow: the end-of-stream query returns 1; and at a new bridge
on which only a reset and a write take place: it returns 0. -/
theorem bridge_end_of_stream_witness :
    socket_ctrl
      (run_bridge_ops { BIO_blank with init := 1, shutdown := 0, ptr := some 3 }
        [BridgeOp.read (some 7) 16 0 false, BridgeOp.ctrl BIO_CTRL_RESET 0 0,
          BridgeOp.write (some 7) 16 0 true])
      BIO_CTRL_EOF 0 0 = 1 ∧
    socket_ctrl
      (run_bridge_ops { BIO_blank with init := 1, shutdown := 0, ptr := some 3 }
        [BridgeOp.ctrl BIO_CTRL_RESET 0 0, BridgeOp.write (some 7) 16 0 true])
      BIO_CTRL_EOF 0 0 = 0 :=
  ⟨(bridge_end_of_stream true 3 { BIO_blank with init := 1, shutdown := 0, ptr := some 3 }
      [BridgeOp.read (some 7) 16 0 false, BridgeOp.ctrl BIO_CTRL_RESET 0 0,
        BridgeOp.write (some 7) 16 0 true] 0 0 (by decide)).2.1.2
      ⟨_, List.mem_cons_self _ _, 7, 16, false, rfl⟩,
   (bridge_end_of_stream true 3 { BIO_blank with init := 1, shutdown := 0, ptr := some 3 }
      [BridgeOp.ctrl BIO_CTRL_RESET 0 0, BridgeOp.write (some 7) 16 0 true] 0 0
      (by decide)).2.2.1.2
      (by rintro ⟨op, hm, out, outl, blocking, rfl⟩; simp at hm)⟩

/-! ## The adapter before `StartSSL` -/

/-- C24: for every adapter in `SSL_NONE`, `Send` and `Recv` hand the buffer to
the wrapped socket, once, and return exactly what the socket returns; the
connect, read and write readiness events are each forwarded as exactly one
notification of the same kind; none of the five makes a call into the engine,
and all leave every field of the adapter as it was. -/
theorem not_started_pass_through (env : Env) (pv cb : Nat) (a : Adapter)
    (h : a.state_ = SSLState.SSL_NONE) :
    Send env pv cb a = (env.socket_send, a, [Event.socket_Send pv cb]) ∧
    Recv env pv cb a = (env.socket_recv, a, [Event.socket_Recv pv cb]) ∧
    OnConnectEvent env a = (a, [Event.SignalConnectEvent]) ∧
    OnReadEvent env a = (a, [Event.SignalReadEvent]) ∧
    OnWriteEvent env a = (a, [Event.SignalWriteEvent]) ∧
    (∀ e ∈ (Send env pv cb a).2.2 ++ (Recv env pv cb a).2.2 ++ (OnConnectEvent env a).2 ++
        (OnReadEvent env a).2 ++ (OnWriteEvent env a).2, e.is_engine_call = false) := by
  have h1 : Send env pv cb a = (env.socket_send, a, [Event.socket_Send pv cb]) := by
    simp [Send, h]
  have h2 : Recv env pv cb a = (env.socket_recv, a, [Event.socket_Recv pv cb]) := by
    simp [Recv, h]
  have h3 : OnConnectEvent env a = (a, [Event.SignalConnectEvent]) := by
    simp [OnConnectEvent, h]
  have h4 : OnReadEvent env a = (a, [Event.SignalReadEvent]) := by
    simp [OnReadEvent, h]
  have h5 : OnWriteEvent env a = (a, [Event.SignalWriteEvent]) := by
    simp [OnWriteEvent, h]
  refine ⟨h1, h2, h3, h4, h5, ?_⟩
  rw [h1, h2, h3, h4, h5]
  intro e he
  simp only [List.mem_append, List.mem_singleton] at he
  rcases he with (((he | he) | he) | he) | he <;> rw [he] <;> rfl

/-- C24, at a fresh adapter on a socket whose `Send` takes 5 of 9 bytes. -/
theorem not_started_pass_through_witness :
    Send sample_env 0 9 Adapter.new = (5, Adapter.new, [Event.socket_Send 0 9]) ∧
    OnReadEvent sample_env Adapter.new = (Adapter.new, [Event.SignalReadEvent]) :=
  ⟨(not_started_pass_through sample_env 0 9 Adapter.new rfl).1,
   (not_started_pass_through sample_env 0 9 Adapter.new rfl).2.2.2.1⟩

end OpenSSLAdapter
